import Mathlib

/-!
# Verification of the LF fusion-language compiler and runtime

A shallow embedding of the LF toolchain (`lf-compile.py`, `lf-run.py`,
`lf-security.py`) in Lean 4, together with theorems settling the frozen
claims about its natural-language specification.

Modelling conventions:
* Python strings are Lean `String`s; all slicing/stripping helpers below
  mirror the corresponding Python operations on code-point sequences.
* Fallible Python code (code that can raise) is modelled with `Except` /
  `Option`.
* External effects (subprocess invocation, the Python `eval`/`exec`
  builtins, module lookup) are modelled by a `World` of deterministic
  oracles; observable actions (printing, process spawns, temp-file
  creation) are recorded in an explicit event trace.
-/

namespace LF

/-! ## String helpers (Python semantics) -/

/-- The whitespace class of Python `str.strip` / `\s` (ASCII part). -/
def pyIsSpace (c : Char) : Bool :=
  c = ' ' || c = '\t' || c = '\n' || c = '\r' || c = '\x0b' || c = '\x0c'

def stripLChars (cs : List Char) : List Char := cs.dropWhile pyIsSpace

def stripRChars (cs : List Char) : List Char := (cs.reverse.dropWhile pyIsSpace).reverse

/-- Python `str.strip()`. -/
def pyStrip (s : String) : String := ⟨stripRChars (stripLChars s.data)⟩

/-- Python `str.lstrip()`. -/
def pyLStrip (s : String) : String := ⟨stripLChars s.data⟩

/-- `len(line) - len(line.lstrip())`: the indentation width of a line. -/
def indentOf (s : String) : Nat := s.data.length - (pyLStrip s).data.length

/-- Python `s[a:]` (character count). -/
def strDrop (s : String) (a : Nat) : String := ⟨s.data.drop a⟩

/-- Python `s[:b]` (character count). -/
def strTake (s : String) (b : Nat) : String := ⟨s.data.take b⟩

/-- Python `s[a:b]` for `0 ≤ a ≤ b`. -/
def strSlice (s : String) (a b : Nat) : String := ⟨(s.data.drop a).take (b - a)⟩

/-- Python `s.startswith(pre)` (kernel-reducible). -/
def strStarts (s pre : String) : Bool := s.data.take pre.data.length == pre.data

/-- Python `s.endswith(suf)` (kernel-reducible). -/
def strEnds (s suf : String) : Bool :=
  s.data.drop (s.data.length - suf.data.length) == suf.data

/-- ASCII lowercasing of one character (kernel-reducible). -/
def lowerChar (c : Char) : Char :=
  if 'A' ≤ c && c ≤ 'Z' then Char.ofNat (c.toNat + 32) else c

/-- Python `s.lower()` (ASCII). -/
def strLower (s : String) : String := ⟨s.data.map lowerChar⟩

/-- Python `s.split(c)` for a one-character separator. -/
def splitOnChar (c : Char) : List Char → List (List Char)
  | [] => [[]]
  | x :: rest =>
    let r := splitOnChar c rest
    if x == c then [] :: r
    else (x :: r.headD []) :: r.tail

def strSplitOnChar (s : String) (c : Char) : List String :=
  (splitOnChar c s.data).map fun cs => ⟨cs⟩

/-- Python `sep.join(parts)` (kernel-reducible). -/
def joinWith (sep : String) : List String → String
  | [] => ""
  | [x] => x
  | x :: rest => x ++ sep ++ joinWith sep rest

/-- First index `≥ start` carrying character `c`, Python `s.find(c, start)`. -/
def findCharFrom (cs : List Char) (c : Char) (start : Nat) : Option Nat :=
  (List.range cs.length).find? fun i => decide (start ≤ i) && cs.getD i c == c

/-- Last index carrying character `c`, Python `s.rfind(c)`. -/
def rfindChar (cs : List Char) (c : Char) : Option Nat :=
  ((List.range cs.length).filter fun i => cs.getD i c == c).getLast?

/-- `sub` occurs in `cs` starting at `i`. -/
def subAt (cs : List Char) (i : Nat) (sub : List Char) : Bool :=
  (cs.drop i).take sub.length == sub

/-- First index where `sub` occurs, Python `s.find(sub)`. -/
def findSub (cs sub : List Char) : Option Nat :=
  (List.range (cs.length + 1)).find? fun i => subAt cs i sub

/-- Python `sub in s`. -/
def containsSub (s sub : String) : Bool := (findSub s.data sub.data).isSome

/-- Python `s.count(c)` for a single character. -/
def countChar (s : String) (c : Char) : Nat := (s.data.filter (· == c)).length

/-- Python `s.split(' ', 1)`: `none` when there is no space (one part),
otherwise the part before the first space and the remainder after it. -/
def splitFirstSpace (s : String) : Option (String × String) :=
  (findCharFrom s.data ' ' 0).map fun i => (strTake s i, strDrop s (i + 1))

/-! ## `sanitize_input` (lf-compile.py): the fatal regex denylist

Each Python regex from the `dangerous_patterns` list is translated into a
decidable search over the lowercased character sequence (the searches are
run with `re.IGNORECASE`).  `\w` is modelled as ASCII alphanumerics plus
underscore, and `.` does not match a newline, as in Python. -/

def isWordChar (c : Char) : Bool := c.isAlphanum || c = '_'

def boundaryBefore (cs : List Char) (i : Nat) : Bool :=
  i == 0 || !isWordChar (cs.getD (i - 1) ' ')

def boundaryAfter (cs : List Char) (i : Nat) : Bool :=
  cs.length ≤ i || !isWordChar (cs.getD i ' ')

/-- `re.search(r'\bWORD\b', text)` for a literal word. -/
def searchWord (cs : List Char) (w : String) : Bool :=
  (List.range (cs.length + 1)).any fun i =>
    boundaryBefore cs i && subAt cs i w.data && boundaryAfter cs (i + w.data.length)

/-- No newline in `cs[a:b]` (the span matched by `.*`). -/
def noNL (cs : List Char) (a b : Nat) : Bool :=
  ((cs.drop a).take (b - a)).all (· ≠ '\n')

/-- `re.search(r'\bimport\b.*os\b', text)`. -/
def patImportOs (cs : List Char) : Bool :=
  (List.range (cs.length + 1)).any fun i =>
    boundaryBefore cs i && subAt cs i "import".data && boundaryAfter cs (i + 6) &&
    ((List.range (cs.length + 1)).any fun j =>
      decide (i + 6 ≤ j) && subAt cs j "os".data && boundaryAfter cs (j + 2) &&
      noNL cs (i + 6) j)

/-- `re.search(r'\bopen\b\s*\(\s*[^)]*\.\./', text)`.  Since `[^)]` is a
superset of `\s` minus nothing relevant, the two inner starred groups are
modelled by one non-`)` span after the parenthesis. -/
def patOpenTraversal (cs : List Char) : Bool :=
  (List.range (cs.length + 1)).any fun i =>
    boundaryBefore cs i && subAt cs i "open".data && boundaryAfter cs (i + 4) &&
    ((List.range (cs.length + 1)).any fun k =>
      decide (i + 4 ≤ k) && ((cs.drop (i + 4)).take (k - (i + 4))).all pyIsSpace &&
      cs.getD k ' ' == '(' &&
      ((List.range (cs.length + 1)).any fun n =>
        decide (k + 1 ≤ n) && ((cs.drop (k + 1)).take (n - (k + 1))).all (· ≠ ')') &&
        subAt cs n "../".data))

/-- `re.search(r'\b__.*__\b', text)`. -/
def patDunder (cs : List Char) : Bool :=
  (List.range (cs.length + 1)).any fun i =>
    boundaryBefore cs i && subAt cs i "__".data &&
    ((List.range (cs.length + 1)).any fun j =>
      decide (i + 2 ≤ j) && subAt cs j "__".data && boundaryAfter cs (j + 2) &&
      noNL cs (i + 2) j)

/-- `re.search(r'\bWORD\b\.', text)`: the trailing `\b` before the literal
dot holds automatically because `.` is not a word character. -/
def patWordDot (cs : List Char) (w : String) : Bool :=
  (List.range (cs.length + 1)).any fun i =>
    boundaryBefore cs i && subAt cs i (w ++ ".").data

/-- The ordered denylist of `sanitize_input`, each with its source regex
text (used in the raised error message). -/
def dangerous_patterns : List (String × (List Char → Bool)) :=
  [("\\bimport\\b.*os\\b", patImportOs),
   ("\\bexec\\b", fun cs => searchWord cs "exec"),
   ("\\beval\\b", fun cs => searchWord cs "eval"),
   ("\\bopen\\b\\s*\\(\\s*[^)]*\\.\\./", patOpenTraversal),
   ("\\b__.*__\\b", patDunder),
   ("\\bimportlib\\b", fun cs => searchWord cs "importlib"),
   ("\\bsubprocess\\b", fun cs => searchWord cs "subprocess"),
   ("\\bos\\b\\.", fun cs => patWordDot cs "os"),
   ("\\bsys\\b\\.", fun cs => patWordDot cs "sys"),
   ("\\bshutil\\b", fun cs => searchWord cs "shutil"),
   ("\\brequests\\b", fun cs => searchWord cs "requests")]

/-- `sanitize_input`: raises `ValueError` on the first matching pattern,
otherwise returns the text unchanged. -/
def sanitize_input (text : String) : Except String String :=
  let cs := text.data.map lowerChar
  match dangerous_patterns.find? (fun p => p.2 cs) with
  | some p => .error ("Potentially dangerous code pattern detected: " ++ p.1)
  | none => .ok text

/-! ## The parsed program model (lf-compile.py `parse_lf_source`) -/

structure DirEntry where
  value : String
  line : Nat
deriving Repr, DecidableEq

/-- The `directives` dictionary: key → entries, insertion-ordered both in
keys and within one key, as a Python `dict` of lists built with
`setdefault(...).append(...)`. -/
abbrev Directives := List (String × List DirEntry)

def dirAppend (ds : Directives) (k : String) (e : DirEntry) : Directives :=
  match ds with
  | [] => [(k, [e])]
  | (k', es) :: rest =>
    if k' = k then (k', es ++ [e]) :: rest else (k', es) :: dirAppend rest k e

def dirLookup (ds : Directives) (k : String) : List DirEntry :=
  match ds with
  | [] => []
  | (k', es) :: rest => if k' = k then es else dirLookup rest k

structure Block where
  line : Nat
  type : String
  content : String
deriving Repr, DecidableEq

/-- The program model returned by `parse_lf_source` (the `source_hash`
field, a SHA-256 digest prefix, is not modelled). -/
structure Parsed where
  directives : Directives
  code_blocks : List Block
deriving Repr, DecidableEq

/-- An advisory finding of `LFSecurity.validate_code` (lf-security.py);
`is_valid` of the result dictionary is `issues.isEmpty`. -/
structure SecurityIssue where
  itype : String
  severity : String
deriving Repr, DecidableEq

/-- The security screener: `(content, language) ↦ issues`.  `parse_lf_source`
holds an optional screener (the module may fail to load). -/
abbrev Screener := String → String → List SecurityIssue

/-- The keys recognized by the directive handler. -/
def recognizedKeys : List String := ["python_import", "name", "author", "description"]

/-- `^[a-zA-Z_][a-zA-Z0-9_.]*$` (anchored `re.match`, no IGNORECASE). -/
def isValidModuleName (v : String) : Bool :=
  match v.data with
  | [] => false
  | c :: rest => (c.isAlpha || c == '_') && rest.all fun d => d.isAlphanum || d == '_' || d == '.'

/-- The directive branch of `parse_lf_source` for a stripped line starting
with `#` at index `i` (0-based).  Returns the updated directives or the
raised `ValueError` message. -/
def parseDirectiveLine (line : String) (i : Nat) (dirs : Directives) :
    Except String Directives :=
  match splitFirstSpace (strDrop line 1) with
  | none => .ok dirs
  | some (directive, value0) =>
    let keyed : String → Except String Directives := fun value =>
      if strLower directive ∈ recognizedKeys then
        if strLower directive == "python_import" && !isValidModuleName value then
          .error ("Invalid module name '" ++ value ++ "' at line " ++ toString (i + 1))
        else
          .ok (dirAppend dirs directive ⟨value, i + 1⟩)
      else .ok dirs
    if strStarts value0 "\"" || strStarts value0 "'" then
      let q := value0.data.headD '"'
      match findCharFrom value0.data q 1 with
      | some e => keyed (strSlice value0 1 e)
      | none => .error ("Unmatched quote at line " ++ toString (i + 1))
    else
      match findSub value0.data "//".data with
      | some p => keyed (pyStrip (strTake value0 p))
      | none => keyed (pyStrip value0)

/-- `content_stripped` opens a multi-line structure (the keyword test of
the `py.` branch of `parse_lf_source`). -/
def isMultilineStart (s : String) : Bool :=
  strStarts s "def " || strStarts s "class " || strStarts s "if " ||
  strStarts s "for " || strStarts s "while " || strStarts s "with " ||
  strStarts s "try:" || strStarts s "@" ||
  (strEnds s ":" && !strStarts s "#")

/-- Whether physical line `k` ends a multi-line `py.` unit with base
indentation `base`: non-empty, not a `//` comment, indentation `≤ base`. -/
def endsUnit (lines : List String) (k : Nat) (base : Nat) : Bool :=
  let L := lines.getD k ""
  !(pyStrip L == "") && !strStarts (pyStrip L) "//" && decide (indentOf L ≤ base)

/-- The per-line contribution of the lookahead of `parse_lf_source` to the
accumulated fragment content. -/
def absorbLine (L : String) (base : Nat) : String :=
  if pyStrip L == "" || strStarts (pyStrip L) "//" then ""
  else if strStarts (pyLStrip L) "py." then "\n" ++ strDrop (pyLStrip L) 3
  else "\n" ++ strDrop L base

/-- The multi-line lookahead loop of `parse_lf_source`: starting at line
index `j`, absorb lines into `acc` until the unit ends; returns the full
content and the index of the line that ended the unit.

The loop is written with structural recursion on a fuel argument so that
it evaluates by kernel reduction; every iteration advances `j` by one, so
`lines.length` fuel always suffices, and the fuel-exhaustion value equals
the loop-exit value (fuel can run out only once `j ≥ lines.length`). -/
def compileLook (lines : List String) (base : Nat) :
    Nat → String → Nat → String × Nat
  | 0, acc, j => (acc, j)
  | fuel + 1, acc, j =>
    if h : j < lines.length then
      let L := lines[j]
      if pyStrip L == "" || strStarts (pyStrip L) "//" then
        compileLook lines base fuel acc (j + 1)
      else if indentOf L ≤ base && !(pyStrip L == "") then
        (acc, j)
      else if strStarts (pyLStrip L) "py." then
        compileLook lines base fuel (acc ++ "\n" ++ strDrop (pyLStrip L) 3) (j + 1)
      else
        compileLook lines base fuel (acc ++ "\n" ++ strDrop L base) (j + 1)
    else (acc, j)

theorem compileLook_ge (lines : List String) (base fuel : Nat) (acc : String) (j : Nat) :
    j ≤ (compileLook lines base fuel acc j).2 := by
  induction fuel generalizing acc j with
  | zero => exact Nat.le.refl
  | succ n ih =>
    rw [compileLook]
    split
    · dsimp only
      split
      · exact Nat.le_of_succ_le (ih acc (j + 1))
      · split
        · exact Nat.le.refl
        · split
          · exact Nat.le_of_succ_le (ih _ (j + 1))
          · exact Nat.le_of_succ_le (ih _ (j + 1))
    · exact Nat.le.refl

/-- The warning lines printed when the screener reports findings for one
code block (language shown with its display name). -/
def screenWarns (scr : Option Screener) (content lang disp : String) (line : Nat) :
    List String :=
  match scr with
  | none => []
  | some s =>
    let issues := s content lang
    if issues.isEmpty then []
    else
      ("⚠️  Security warning for " ++ disp ++ " code at line " ++ toString line ++ ":") ::
      issues.map fun is => "   - " ++ is.itype ++ " (severity: " ++ is.severity ++ ")"

/-- The main loop of `parse_lf_source`: walks the physical lines from
index `i`, accumulating directives, code blocks and printed warnings.

Structurally recursive on a fuel argument for kernel evaluation: every
iteration advances `i` by at least one (`compileLook` returns a stop index
`≥ i + 1`), so `lines.length` fuel always suffices and fuel can run out
only once `i ≥ lines.length`, where the fuel-exhaustion value equals the
loop-exit value. -/
def parseLoop (scr : Option Screener) (lines : List String) :
    Nat → Nat → Directives → List Block → List String →
    Except String (Parsed × List String)
  | 0, _, dirs, blocks, warns => .ok (⟨dirs, blocks⟩, warns)
  | fuel + 1, i, dirs, blocks, warns =>
    if h : i < lines.length then
      let raw := lines[i]
      let line := pyStrip raw
      if line == "" || strStarts line "//" then
        parseLoop scr lines fuel (i + 1) dirs blocks warns
      else if strStarts line "#" then
        match parseDirectiveLine line i dirs with
        | .error e => .error e
        | .ok dirs' => parseLoop scr lines fuel (i + 1) dirs' blocks warns
      else if strStarts (pyLStrip raw) "cpp." then
        let content := strDrop (pyLStrip raw) 4
        parseLoop scr lines fuel (i + 1) dirs (blocks ++ [⟨i + 1, "cpp", content⟩])
          (warns ++ screenWarns scr content "cpp" "C++" (i + 1))
      else if strStarts (pyLStrip raw) "py." then
        let content := strDrop (pyLStrip raw) 3
        if isMultilineStart (pyStrip content) then
          let r := compileLook lines (indentOf raw) lines.length content (i + 1)
          parseLoop scr lines fuel r.2 dirs (blocks ++ [⟨i + 1, "py", r.1⟩])
            (warns ++ screenWarns scr r.1 "py" "Python" (i + 1))
        else
          parseLoop scr lines fuel (i + 1) dirs (blocks ++ [⟨i + 1, "py", content⟩])
            (warns ++ screenWarns scr content "py" "Python" (i + 1))
      else if strStarts (pyLStrip raw) "js." then
        let content := strDrop (pyLStrip raw) 3
        parseLoop scr lines fuel (i + 1) dirs (blocks ++ [⟨i + 1, "js", content⟩])
          (warns ++ screenWarns scr content "js" "JavaScript" (i + 1))
      else if strStarts (pyLStrip raw) "java." then
        parseLoop scr lines fuel (i + 1) dirs
          (blocks ++ [⟨i + 1, "java", strDrop (pyLStrip raw) 5⟩]) warns
      else if strStarts (pyLStrip raw) "php." then
        parseLoop scr lines fuel (i + 1) dirs
          (blocks ++ [⟨i + 1, "php", strDrop (pyLStrip raw) 4⟩]) warns
      else if strStarts (pyLStrip raw) "rust." then
        parseLoop scr lines fuel (i + 1) dirs
          (blocks ++ [⟨i + 1, "rust", strDrop (pyLStrip raw) 5⟩]) warns
      else
        if !(line == "") && !strStarts line "/*" then
          parseLoop scr lines fuel (i + 1) dirs blocks
            (warns ++ ["⚠️  Unparseable line " ++ toString (i + 1) ++ ": " ++ line])
        else parseLoop scr lines fuel (i + 1) dirs blocks warns
    else .ok (⟨dirs, blocks⟩, warns)

/-- `parse_lf_source` (lf-compile.py): sanitize, split into lines, run the
main loop.  Returns the model together with the warning lines printed
during parsing (the prints about loading the security module itself are
not modelled; the screener's availability is the `Option`). -/
def parse_lf_source (scr : Option Screener) (source_code : String) :
    Except String (Parsed × List String) :=
  match sanitize_input source_code with
  | .error e => .error e
  | .ok sanitized =>
    let lines := strSplitOnChar sanitized '\n'
    parseLoop scr lines lines.length 0 [] [] []

/-- The parse phase of `main` in lf-compile.py: a `ValueError` from
`parse_lf_source` is caught, printed, and the process exits with status 1
(file I/O and packaging, which come after, are not modelled). -/
def lf_compile_exit (src : String) : Nat :=
  match parse_lf_source none src with
  | .error _ => 1
  | .ok _ => 0

/-! ## Runtime values (lf-run.py)

Python values held in the runtime's shared state.  Floats carry their
literal text (their numeric semantics is never needed by the runtime's
observable behaviour modelled here); callables, modules and the runtime
object itself are opaque tags.  `vRuntime` is the `OptimizedLFRuntime`
instance that `_initialize_globals` binds to the name `cpp`. -/

inductive PyVal where
  | vBool (b : Bool)
  | vInt (n : Int)
  | vFloat (lit : String)
  | vStr (s : String)
  | vList (xs : List PyVal)
  | vDict (xs : List (String × PyVal))
  | vCallable (name : String)
  | vModule (name : String)
  | vRuntime
  | vOpaque (tag : String)
deriving Repr

/-- Python `callable(v)`. -/
def isCallable : PyVal → Bool
  | .vCallable _ => true
  | _ => false

/-- Python `hasattr(v, '__name__')`: true for functions and modules. -/
def hasDunderName : PyVal → Bool
  | .vCallable _ => true
  | .vModule _ => true
  | _ => false

/-- Python `len(v)`, `none` when `len` raises `TypeError`. -/
def pyLen : PyVal → Option Nat
  | .vStr s => some s.data.length
  | .vList xs => some xs.length
  | .vDict xs => some xs.length
  | _ => none

mutual
/-- Python `str(v)`.  Scalars are rendered exactly; the display strings of
callables, modules, dictionaries and the runtime object are abstracted
(they never arise on the code paths the claims are about). -/
def pyStr : PyVal → String
  | .vStr s => s
  | .vBool b => if b then "True" else "False"
  | .vInt n => toString n
  | .vFloat l => l
  | .vList xs => "[" ++ pyReprJoin xs ++ "]"
  | .vDict _ => "<dict>"
  | .vCallable n => "<function " ++ n ++ ">"
  | .vModule n => "<module " ++ n ++ ">"
  | .vRuntime => "<OptimizedLFRuntime>"
  | .vOpaque t => "<" ++ t ++ ">"

/-- Python `repr(v)` as used for list elements by `str(list)`. -/
def pyRepr : PyVal → String
  | .vStr s => "'" ++ s ++ "'"
  | v => pyStr v

def pyReprJoin : List PyVal → String
  | [] => ""
  | [x] => pyRepr x
  | x :: rest => pyRepr x ++ ", " ++ pyReprJoin rest
end

/-- The `self.variables` / `self.functions` dictionaries: insertion-ordered
string-keyed maps, with Python `dict` assignment semantics (`envInsert`
replaces in place or appends). -/
abbrev Env := List (String × PyVal)

def envLookup (e : Env) (k : String) : Option PyVal :=
  (e.find? fun p => p.1 == k).map (·.2)

def envInsert (e : Env) (k : String) (v : PyVal) : Env :=
  match e with
  | [] => [(k, v)]
  | (k', v') :: rest =>
    if k' == k then (k, v) :: rest else (k', v') :: envInsert rest k v

/-- Python `dst.update(src)`. -/
def envUpdateAll (dst src : Env) : Env :=
  src.foldl (fun acc p => envInsert acc p.1 p.2) dst

/-! ## Python numeric literal acceptance (`int(s)` / `float(s)`)

Decimal forms with optional sign, surrounding whitespace and single
underscores between digits; `inf`/`nan` are not modelled (they cannot
reach the `float` branch of `_evaluate_expression_simple`, which requires
a `.` in the text). -/

def isDigitGroupRest : List Char → Bool
  | [] => true
  | '_' :: c :: rest => c.isDigit && isDigitGroupRest rest
  | ['_'] => false
  | c :: rest => c.isDigit && isDigitGroupRest rest

def isDigitGroup : List Char → Bool
  | [] => false
  | c :: rest => c.isDigit && isDigitGroupRest rest

def digitsVal (cs : List Char) : Int :=
  (cs.filter (· ≠ '_')).foldl (fun acc c => acc * 10 + (c.toNat - '0'.toNat)) 0

def pyTrimChars (s : String) : List Char := stripRChars (stripLChars s.data)

/-- Python `int(s)` on decimal text, `none` on `ValueError`. -/
def pyIntParse (s : String) : Option Int :=
  match pyTrimChars s with
  | '+' :: rest => if isDigitGroup rest then some (digitsVal rest) else none
  | '-' :: rest => if isDigitGroup rest then some (-(digitsVal rest)) else none
  | cs => if isDigitGroup cs then some (digitsVal cs) else none

def floatMantissaOk (cs : List Char) : Bool :=
  match cs.findIdx? (· == '.') with
  | some i =>
    let a := cs.take i
    let b := cs.drop (i + 1)
    !b.contains '.' &&
    ((a.isEmpty && isDigitGroup b) || (isDigitGroup a && (b.isEmpty || isDigitGroup b)))
  | none => isDigitGroup cs

def floatExpOk : List Char → Bool
  | '+' :: r => isDigitGroup r
  | '-' :: r => isDigitGroup r
  | cs => isDigitGroup cs

def floatBodyOk (cs : List Char) : Bool :=
  match cs.findIdx? (fun c => c == 'e' || c == 'E') with
  | some i => floatMantissaOk (cs.take i) && floatExpOk (cs.drop (i + 1))
  | none => floatMantissaOk cs

/-- Python `float(s)` accepts `s` (decimal/exponent forms). -/
def pyFloatAccepts (s : String) : Bool :=
  match pyTrimChars s with
  | '+' :: r => floatBodyOk r
  | '-' :: r => floatBodyOk r
  | cs => floatBodyOk cs

/-! ## The inline printf fast path (lf-run.py) -/

/-- `_split_printf_params`: split on top-level commas, respecting nesting
depth of parentheses/brackets/braces and quoted substrings. -/
def splitPrintfGo (cs : List Char) (current : String) (paren bracket brace : Int)
    (inString : Bool) (stringChar : Char) (params : List String) : List String :=
  match cs with
  | [] => if pyStrip current != "" then params ++ [pyStrip current] else params
  | c :: rest =>
    if !inString then
      if c == '"' || c == '\'' then
        splitPrintfGo rest (current.push c) paren bracket brace true c params
      else if c == '(' then
        splitPrintfGo rest (current.push c) (paren + 1) bracket brace inString stringChar params
      else if c == ')' then
        splitPrintfGo rest (current.push c) (paren - 1) bracket brace inString stringChar params
      else if c == '[' then
        splitPrintfGo rest (current.push c) paren (bracket + 1) brace inString stringChar params
      else if c == ']' then
        splitPrintfGo rest (current.push c) paren (bracket - 1) brace inString stringChar params
      else if c == '{' then
        splitPrintfGo rest (current.push c) paren bracket (brace + 1) inString stringChar params
      else if c == '}' then
        splitPrintfGo rest (current.push c) paren bracket (brace - 1) inString stringChar params
      else if c == ',' && paren == 0 && bracket == 0 && brace == 0 then
        splitPrintfGo rest "" paren bracket brace inString stringChar (params ++ [pyStrip current])
      else
        splitPrintfGo rest (current.push c) paren bracket brace inString stringChar params
    else
      if c == stringChar then
        splitPrintfGo rest (current.push c) paren bracket brace false stringChar params
      else
        splitPrintfGo rest (current.push c) paren bracket brace inString stringChar params

def _split_printf_params (params_str : String) : List String :=
  splitPrintfGo params_str.data "" 0 0 0 false ' ' []

/-- One of `[sdfFgGeExXoOc]`. -/
def fmtClassChar (c : Char) : Bool :=
  c == 's' || c == 'd' || c == 'f' || c == 'F' || c == 'g' || c == 'G' ||
  c == 'e' || c == 'E' || c == 'x' || c == 'X' || c == 'o' || c == 'O' || c == 'c'

/-- The match of `%[0-9.]*[sdfFgGeExXoOc]` anchored at position `i`
(greedy on the starred class, as the regex engine backtracks): returns the
exclusive end index. -/
def fmtMatchAt (cs : List Char) (i : Nat) : Option Nat :=
  if cs.getD i ' ' == '%' then
    let run := ((cs.drop (i + 1)).takeWhile fun c => c.isDigit || c == '.').length
    (List.range (run + 1)).reverse.findSome? fun m =>
      if decide (i + 1 + m < cs.length) && fmtClassChar (cs.getD (i + 1 + m) ' ') then
        some (i + m + 2)
      else none
  else none

/-- `re.search` for the format-specifier pattern: leftmost match,
`(start, end)` exclusive. -/
def findFmtSpec (s : String) : Option (Nat × Nat) :=
  (List.range s.data.length).findSome? fun i => (fmtMatchAt s.data i).map fun e => (i, e)

/-! ## The runtime world: external-effect oracles and the event trace -/

/-- Result of one `subprocess.run` call: completion with exit code and
captured stdout/stderr, `subprocess.TimeoutExpired`, or
`FileNotFoundError` (missing toolchain). -/
inductive ProcRes where
  | done (exitCode : Int) (stdout stderr : String)
  | timeout
  | notFound
deriving Repr, DecidableEq

/-- Observable events: a `print(...)` payload, a stderr print, a
subprocess invocation, a temporary-file creation with its written
content. -/
inductive Ev where
  | out (s : String)
  | errOut (s : String)
  | spawn (argv : List String)
  | fileCreate (path : String) (content : String)
deriving Repr, DecidableEq

/-- The runtime's mutable state (`OptimizedLFRuntime`): the shared
variable map (`self.variables`, here `vars`) and function map, the temp-file cleanup tracker, execution statistics,
recorded test names, a counter feeding `tempName`, and the set of files
currently existing on disk (a ghost field tracking creation/deletion). -/
structure RState where
  vars : Env
  functions : Env
  temp_files : List String
  language_stats : List (String × Nat)
  total_executions : Nat
  test_start_times : List String
  tempCounter : Nat
  disk : List String
deriving Repr

/-- The outcome of one restricted-`eval` call (the last stage of
`_evaluate_expression_simple`).  `result = none` models a raised
exception, swallowed by the caller.  Because `safe_env =
dict(self.variables)` snapshots the shared variables, which
`_initialize_globals` seeds with `cpp ↦ self` (the whole runtime object),
an evaluated expression can reach the live runtime and invoke its
methods.  The remaining fields are therefore the post-call values of the
state components such methods mutate — the shared variable and function
maps, the temp-file tracker and its counter, and the ghost disk —
together with the events (prints, process spawns, temp-file creations)
the call performs.  Re-entrant calls into `execute_block` itself, which
would additionally advance the execution statistics, are not modelled. -/
structure EvalRes where
  result : Option PyVal
  vars : Env
  functions : Env
  temp_files : List String
  tempCounter : Nat
  disk : List String
  events : List Ev
deriving Repr

/-- Deterministic oracles for the effects the runtime performs:
`proc` is `subprocess.run` keyed by the argument vector; `pyEval` is the
Python `eval` builtin, handed the evaluation environment (locals snapshot;
its globals carry an empty `__builtins__`) and the current runtime state
reachable through the environment's `cpp ↦ self` binding; `pyExec` is the
Python `exec` builtin, returning the final environment items or a raised
error; `importOk` is module importability; `tempName` generates the n-th
fresh temporary path stem; `elapsed` is the wall-clock total used in the
final reports (float formatting is not modelled). -/
structure World where
  proc : List String → ProcRes
  pyEval : String → Env → RState → EvalRes
  pyExec : String → Env → Except String Env
  importOk : String → Bool
  tempName : Nat → String
  tempDir : String
  elapsed : Nat

/-- Commit the state components an `eval` call may have mutated. -/
def evalApply (st : RState) (r : EvalRes) : RState :=
  { st with vars := r.vars, functions := r.functions, temp_files := r.temp_files,
            tempCounter := r.tempCounter, disk := r.disk }

/-- An `eval` oracle that always raises and touches nothing (an
expression whose evaluation fails without side effects). -/
def pyEvalInert : String → Env → RState → EvalRes :=
  fun _ _ st =>
    { result := none, vars := st.vars, functions := st.functions,
      temp_files := st.temp_files, tempCounter := st.tempCounter,
      disk := st.disk, events := [] }

/-- An `RState` with everything empty (a fresh `OptimizedLFRuntime`). -/
def initState : RState :=
  { vars := [], functions := [], temp_files := [], language_stats := [],
    total_executions := 0, test_start_times := [], tempCounter := 0, disk := [] }

/-! ## `_evaluate_expression_simple` and the printf fast path -/

/-- The fixed builtin allow-list installed over the variable snapshot for
the restricted `eval` (`safe_builtins` in `_evaluate_expression_simple`). -/
def safe_builtins : Env :=
  [("len", .vCallable "len"), ("int", .vCallable "int"), ("float", .vCallable "float"),
   ("str", .vCallable "str"), ("bool", .vCallable "bool"), ("list", .vCallable "list"),
   ("dict", .vCallable "dict"), ("tuple", .vCallable "tuple"), ("range", .vCallable "range"),
   ("min", .vCallable "min"), ("max", .vCallable "max"), ("sum", .vCallable "sum"),
   ("abs", .vCallable "abs"), ("round", .vCallable "round")]

/-- `safe_env = dict(self.variables); safe_env.update(safe_builtins)`:
the entire evaluation environment handed to `eval` (whose globals carry an
empty `__builtins__`, so the oracle sees nothing else). -/
def buildSafeEnv (vars : Env) : Env := envUpdateAll vars safe_builtins

/-- The numeric-literal stage followed by the restricted-`eval` stage of
`_evaluate_expression_simple` (shared tail of its fall-through paths).
The `eval` stage consults the oracle on the snapshot environment and the
current state, commits the mutations the call performed and passes its
events through; a raised `eval` (`result = none`) is swallowed and the
text itself returned, its side effects up to the exception kept. -/
def evalTail (expr : String) (st : RState) (w : World) :
    Except String PyVal × RState × List Ev :=
  let numeric : Option PyVal :=
    if expr.data.contains '.' then
      if pyFloatAccepts expr then some (.vFloat expr) else none
    else (pyIntParse expr).map .vInt
  match numeric with
  | some v => (.ok v, st, [])
  | none =>
    let r := w.pyEval expr (buildSafeEnv st.vars) st
    match r.result with
    | some v => (.ok v, evalApply st r, r.events)
    | none => (.ok (.vStr expr), evalApply st r, r.events)

/-- The direct-lookup stage of `_evaluate_expression_simple`: an exact
variable hit, skipped when the value is callable. -/
def directLookup (vars : Env) (expr : String) : Option PyVal :=
  match envLookup vars expr with
  | some v => if isCallable v then none else some v
  | none => none

/-- The quoted-literal test of `_evaluate_expression_simple`:
`len(expr) >= 2` and matching quote characters at both ends. -/
def isQuotedLiteral (expr : String) : Bool :=
  decide (2 ≤ expr.data.length) &&
  ((expr.data.headD ' ' == '"' && expr.data.getLastD ' ' == '"') ||
   (expr.data.headD ' ' == '\'' && expr.data.getLastD ' ' == '\''))

/-- `_evaluate_expression_simple`: exact variable lookup (skipped for
callables), quoted-literal stripping, the `len(name)` pattern (which can
raise `TypeError`), numeric literal parsing, then restricted `eval`; a
failed `eval` returns the text itself.  Only the `eval` stage can touch
the state or emit events. -/
def _evaluate_expression_simple (expr0 : String) (st : RState) (w : World) :
    Except String PyVal × RState × List Ev :=
  let expr := pyStrip expr0
  match directLookup st.vars expr with
  | some v => (.ok v, st, [])
  | none =>
    if isQuotedLiteral expr then
      (.ok (.vStr (strSlice expr 1 (expr.data.length - 1))), st, [])
    else if strStarts expr "len(" && strEnds expr ")" then
      let inner := pyStrip (strSlice expr 4 (expr.data.length - 1))
      match envLookup st.vars inner with
      | some v =>
        match pyLen v with
        | some n => (.ok (.vInt (n : Int)), st, [])
        | none => (.error "TypeError: object has no len()", st, [])
      | none => evalTail expr st w
    else evalTail expr st w

/-- The parameter-substitution loop of `_parse_printf_ultimate`: evaluate
each parameter in order — threading the state, since one parameter's
`eval` mutations are visible to the next — and replace the leftmost
remaining format specifier; stop early when no specifier is left (the
loop breaks after having evaluated the current parameter).  A raised
evaluation propagates with the state and events accumulated so far. -/
def replaceLoop (params : List String) (res : String) (st : RState) (w : World) :
    Except String String × RState × List Ev :=
  match params with
  | [] => (.ok res, st, [])
  | p :: rest =>
    match _evaluate_expression_simple p st w with
    | (.error e, st1, ev1) => (.error e, st1, ev1)
    | (.ok v, st1, ev1) =>
      match findFmtSpec res with
      | some (a, b) =>
        let r := replaceLoop rest (strTake res a ++ pyStr v ++ strDrop res b) st1 w
        (r.1, r.2.1, ev1 ++ r.2.2)
      | none => (.ok res, st1, ev1)

/-- `_parse_printf_ultimate`: extract the literal format string, split the
argument list, substitute format specifiers. -/
def _parse_printf_ultimate (content0 : String) (st : RState) (w : World) :
    Except String String × RState × List Ev :=
  let content := pyStrip content0
  if strStarts content "\"" then
    match findCharFrom content.data '"' 1 with
    | some e =>
      let format_str := strSlice content 1 e
      let params_str := pyLStrip (strDrop content (e + 1))
      if strStarts params_str "," then
        replaceLoop (_split_printf_params (pyStrip (strDrop params_str 1))) format_str st w
      else (.ok format_str, st, [])
    | none => (.ok content, st, [])
  else (.ok content, st, [])

/-! ## The runtime multi-line merger (`_merge_python_blocks`) -/

/-- `_clean_python_code`.  The source splits each line on quoted regions
and applies `re.sub(r'\\bpy\\.(\\w+)', r'\\1', part)` to the non-string
parts.  The doubled backslashes make that raw pattern match only texts
containing literal backslash runs (`\bpy\<char>\ww…`), which never occur
in the non-string parts of code lines, so the function is the identity on
its inputs; it is modelled as the identity. -/
def _clean_python_code (content : String) : String := content

/-- `_is_in_multiline_structure`: the last accumulated line ends with a
continuation indicator (`,`, an open bracket, or a backslash). -/
def _is_in_multiline_structure (content : String) : Bool :=
  match (strSplitOnChar content '\n').getLast? with
  | none => false
  | some last =>
    let l := pyStrip last
    l.data.getLastD ' ' == ',' || l.data.getLastD ' ' == '{' ||
    l.data.getLastD ' ' == '[' || l.data.getLastD ' ' == '(' ||
    l.data.getLastD ' ' == '\\'

/-- `_is_start_of_multiline_structure`: an assignment whose right side
opens a bracket not closed on the same line. -/
def _is_start_of_multiline_structure (content : String) : Bool :=
  match findCharFrom content.data '=' 0 with
  | some i =>
    let right := pyStrip (strDrop content (i + 1))
    (strStarts right "[" && !strEnds right "]") ||
    (right.data.headD ' ' == '{' && !(right.data.getLastD ' ' == '}')) ||
    (strStarts right "(" && !strEnds right ")")
  | none => false

/-- The block-start keyword test of `_merge_python_blocks`. -/
def isBlockStartRun (s : String) : Bool :=
  strStarts s "def " || strStarts s "class " || strStarts s "if " ||
  strStarts s "for " || strStarts s "while " || strStarts s "with " ||
  strStarts s "try:" || strStarts s "try " || strStarts s "except " ||
  strStarts s "elif " || strStarts s "else:" || strStarts s "@" ||
  (strEnds s ":" && !strStarts s "#")

/-- The inner collection loop of `_merge_python_blocks`: absorb following
`py` blocks into `acc` until a non-`py` block, the end of the list, or a
dedented terminator outside a continuation; returns the accumulated
content and the unconsumed remainder. -/
def mergeCollect (base : Nat) (acc : String) (inMulti : Bool) :
    List Block → String × List Block
  | [] => (acc, [])
  | b :: rest =>
    if b.type == "py" then
      let cleaned := _clean_python_code b.content
      let inMulti' := inMulti || _is_in_multiline_structure acc
      let s := pyStrip cleaned
      if decide (indentOf b.content ≤ base) && !(s == "") && !strStarts s "#" &&
         !strStarts s "//" && !inMulti' then
        (acc, b :: rest)
      else
        mergeCollect base (acc ++ "\n" ++ cleaned) inMulti' rest
    else (acc, b :: rest)

theorem mergeCollect_suffix (base : Nat) (acc : String) (inMulti : Bool)
    (bs : List Block) :
    ∃ g, bs = g ++ (mergeCollect base acc inMulti bs).2 ∧
      (∀ x ∈ g, x.type = "py") ∧
      (mergeCollect base acc inMulti bs).1 =
        g.foldl (fun a x => a ++ "\n" ++ _clean_python_code x.content) acc := by
  induction bs generalizing acc inMulti with
  | nil => exact ⟨[], by simp [mergeCollect]⟩
  | cons b rest ih =>
    simp only [mergeCollect]
    split
    · split
      · exact ⟨[], by simp, by simp, by simp⟩
      · next hb _ =>
        obtain ⟨g, hg1, hg2, hg3⟩ :=
          ih (acc ++ "\n" ++ _clean_python_code b.content)
            (inMulti || _is_in_multiline_structure acc)
        refine ⟨b :: g, ?_, ?_, ?_⟩
        · rw [List.cons_append, ← hg1]
        · intro x hx
          rcases List.mem_cons.mp hx with h | h
          · rw [h]; simpa using hb
          · exact hg2 x h
        · rw [List.foldl_cons]; exact hg3
    · exact ⟨[], by simp, by simp, by simp⟩

theorem mergeCollect_len (base : Nat) (acc : String) (inMulti : Bool)
    (bs : List Block) :
    (mergeCollect base acc inMulti bs).2.length ≤ bs.length := by
  obtain ⟨g, hg, -, -⟩ := mergeCollect_suffix base acc inMulti bs
  have h := congrArg List.length hg
  simp only [List.length_append] at h
  omega

/-- The outer loop of `_merge_python_blocks`, structurally recursive on a
fuel argument for kernel evaluation: every iteration consumes at least one
block (`mergeCollect` returns a suffix of its input), so `bs.length` fuel
always suffices and fuel can run out only on the empty remainder, where
the fuel-exhaustion value equals the loop-exit value. -/
def mergeGo : Nat → List Block → List Block
  | 0, _ => []
  | _ + 1, [] => []
  | fuel + 1, b :: rest =>
    if b.type == "py" then
      let cleaned := _clean_python_code b.content
      let s := pyStrip cleaned
      if isBlockStartRun s || _is_start_of_multiline_structure s then
        let r := mergeCollect (indentOf b.content) cleaned
          (_is_start_of_multiline_structure s) rest
        ⟨b.line, "py", r.1⟩ :: mergeGo fuel r.2
      else
        ⟨b.line, "py", cleaned⟩ :: mergeGo fuel rest
    else b :: mergeGo fuel rest

/-- `_merge_python_blocks`: merge consecutive `py` blocks that form one
logical unit into a single fragment at the opener's line (the merged-count
print is emitted by `execute`). -/
def _merge_python_blocks (code_blocks : List Block) : List Block :=
  mergeGo code_blocks.length code_blocks

/-! ## Guest-language executors -/

/-- Replace each occurrence of character `c` by `rep`. -/
def charReplace (s : String) (c : Char) (rep : String) : String :=
  ⟨s.data.foldr (fun ch acc => if ch == c then rep.data ++ acc else ch :: acc) []⟩

/-- Escape for embedding in a double-quoted guest-language string literal:
`value.replace('"', '\\"')`. -/
def escapeDQ (s : String) : String := charReplace s '"' "\\\""

mutual
/-- `json.dumps(v)`: `none` when the value is not JSON-serializable (the
executor skips such variables).  Escaping of control characters inside
strings is not modelled. -/
def jsonDump : PyVal → Option String
  | .vBool b => some (if b then "true" else "false")
  | .vInt n => some (toString n)
  | .vFloat l => some l
  | .vStr s => some ("\"" ++ escapeDQ s ++ "\"")
  | .vList xs => (jsonDumpList xs).map fun parts => "[" ++ joinWith ", " parts ++ "]"
  | .vDict xs => (jsonDumpDict xs).map fun parts => "\x7b" ++ joinWith ", " parts ++ "\x7d"
  | _ => none

def jsonDumpList : List PyVal → Option (List String)
  | [] => some []
  | x :: rest =>
    match jsonDump x, jsonDumpList rest with
    | some s, some ss => some (s :: ss)
    | _, _ => none

def jsonDumpDict : List (String × PyVal) → Option (List String)
  | [] => some []
  | (k, x) :: rest =>
    match jsonDump x, jsonDumpDict rest with
    | some s, some ss => some (("\"" ++ escapeDQ k ++ "\": " ++ s) :: ss)
    | _, _ => none
end

/-- Only simple, non-callable values without a `__name__` attribute are
marshalled into guest programs. -/
def marshallable (v : PyVal) : Bool := !isCallable v && !hasDunderName v

/-- `_python_to_cpp_variable`: the C++ declaration for one shared
variable, `none` when the value's type is not convertible.  `isinstance(x,
int)` is true for Python `bool`s, so boolean list elements qualify for the
vector branch. -/
def _python_to_cpp_variable (name : String) (v : PyVal) : Option String :=
  match v with
  | .vBool b => some ("bool " ++ name ++ " = " ++ (if b then "true" else "false") ++ ";")
  | .vInt n => some ("int " ++ name ++ " = " ++ toString n ++ ";")
  | .vFloat l => some ("double " ++ name ++ " = " ++ l ++ ";")
  | .vStr s => some ("string " ++ name ++ " = \"" ++ escapeDQ s ++ "\";")
  | .vList xs =>
    if !xs.isEmpty && xs.all (fun x =>
        match x with
        | .vInt _ => true
        | .vFloat _ => true
        | .vBool _ => true
        | _ => false) then
      some ("vector<decltype(" ++ pyStr (xs.headD (.vInt 0)) ++ ")> " ++ name ++
        " = \x7b" ++ joinWith ", " (xs.map pyStr) ++ "\x7d;")
    else none
  | .vDict xs =>
    if !xs.isEmpty && xs.all (fun p =>
        match p.2 with
        | .vStr _ => true
        | _ => false) then
      some ("// map<string, string> " ++ name ++ "; // Dictionary not fully supported")
    else none
  | _ => none

/-- `_generate_cpp_program`: headers, marshalled variable declarations,
and a `main` wrapping the user code. -/
def _generate_cpp_program (user_code : String) (st : RState) : String :=
  let headers := "#include <iostream>\n#include <string>\n#include <vector>\n" ++
    "#include <map>\n#include <cmath>\n#include <cstdlib>"
  let decls := (st.vars.filter fun p => marshallable p.2).filterMap
    fun p => _python_to_cpp_variable p.1 p.2
  let prog := headers ++ "\n\n" ++ "using namespace std;\n\n"
  let prog := if decls.isEmpty then prog
    else prog ++ "// Python variables\n" ++ joinWith "\n" decls ++ "\n\n"
  prog ++ "int main() \x7b\n" ++ "    // User code\n" ++ "    " ++
    charReplace user_code '\n' "\n    " ++ "\n" ++ "    return 0;\n" ++ "\x7d"

/-- `_format_cpp_compile_error`.  The temp-path scrubbing `re.sub` is
written with doubled backslashes in the source, so it matches only texts
containing literal backslash runs and each kept line passes through
unchanged. -/
def _format_cpp_compile_error (error_output : String) (line_number : Nat)
    (original_code : String) : String :=
  let simplified := (strSplitOnChar error_output '\n').filter
    fun l => containsSub l "error:" && !containsSub l "temp_"
  if !simplified.isEmpty then
    "[C++] Compile Error:\n" ++ joinWith "\n" (simplified.take 5) ++
      "\nCode: " ++ original_code
  else
    "[C++] Compile Error at line " ++ toString line_number ++ ": " ++ original_code

/-- `_execute_cpp_full`: write the generated program to a fresh temp file,
compile under a 30s timeout, run the binary under a 20s timeout; the
created temp paths are appended to `self.temp_files` only after both
subprocess calls return (the final lines of the `try` block), so a raised
timeout or missing-compiler error skips the registration. -/
def _execute_cpp_full (cpp_code : String) (line_number : Nat) (st : RState) (w : World) :
    RState × List Ev :=
  let fname := w.tempName st.tempCounter ++ ".cpp"
  let exe := w.tempName st.tempCounter ++ ".out"
  let prog := _generate_cpp_program cpp_code st
  let st1 := { st with tempCounter := st.tempCounter + 1, disk := st.disk ++ [fname] }
  let ev1 : List Ev := [.fileCreate fname prog]
  let compileCmd := ["g++", fname, "-o", exe, "-std=c++11", "-O2"]
  match w.proc compileCmd with
  | .notFound =>
    (st1, ev1 ++ [.spawn compileCmd,
      .out "⚠️  [C++] Compiler not found. Please install g++. Skipping execution."])
  | .timeout =>
    (st1, ev1 ++ [.spawn compileCmd,
      .out ("⚠️  [C++] Execution timeout at line " ++ toString line_number ++ ".")])
  | .done rc _ cerr =>
    if rc == 0 then
      let st2 := { st1 with disk := st1.disk ++ [exe] }
      match w.proc [exe] with
      | .timeout =>
        (st2, ev1 ++ [.spawn compileCmd, .spawn [exe],
          .out ("⚠️  [C++] Execution timeout at line " ++ toString line_number ++ ".")])
      | .notFound =>
        (st2, ev1 ++ [.spawn compileCmd, .spawn [exe],
          .out "⚠️  [C++] Compiler not found. Please install g++. Skipping execution."])
      | .done _ rout rerr =>
        let st3 := { st2 with temp_files := st2.temp_files ++ [fname, exe] }
        (st3, ev1 ++ [.spawn compileCmd, .spawn [exe], .out rout] ++
          (if rerr != "" then [.out ("⚠️  C++ Runtime Warning: " ++ rerr)] else []))
    else
      let st2 := { st1 with temp_files := st1.temp_files ++ [fname, exe] }
      (st2, ev1 ++ [.spawn compileCmd,
        .out (_format_cpp_compile_error cerr line_number cpp_code)])

/-- `execute_cpp`: the inline fast path for a simple `printf(...)` call
(no `<<`/`cout`, at most one `;`), falling back to full compilation.  The
fast path threads the state through the argument evaluation (whose `eval`
stage can mutate it and emit events) and appends its own final print. -/
def execute_cpp (code : String) (line_number : Nat) (st : RState) (w : World) :
    Option String × RState × List Ev :=
  let cpp_code := if strStarts code "cpp." then strDrop code 4 else code
  if strStarts (pyStrip cpp_code) "printf(" && !containsSub cpp_code "<<" &&
     !containsSub cpp_code "cout" && decide (countChar cpp_code ';' ≤ 1) then
    match findCharFrom cpp_code.data '(' 0, rfindChar cpp_code.data ')' with
    | some a, some b =>
      match _parse_printf_ultimate (strSlice cpp_code (a + 1) b) st w with
      | (.ok r, st1, ev1) => (none, st1, ev1 ++ [.out r])
      | (.error e, st1, ev1) => (some e, st1, ev1)
    | _, _ =>
      let r := _execute_cpp_full cpp_code line_number st w
      (none, r.1, r.2)
  else
    let r := _execute_cpp_full cpp_code line_number st w
    (none, r.1, r.2)

/-- The `const` declaration marshalling one shared variable into the
generated JavaScript preamble. -/
def jsVarDecl (p : String × PyVal) : Option String :=
  match p.2 with
  | .vBool b => some ("const " ++ p.1 ++ " = " ++ (if b then "true" else "false") ++ ";\n")
  | .vInt n => some ("const " ++ p.1 ++ " = " ++ toString n ++ ";\n")
  | .vFloat l => some ("const " ++ p.1 ++ " = " ++ l ++ ";\n")
  | .vStr s => some ("const " ++ p.1 ++ " = \"" ++ escapeDQ s ++ "\";\n")
  | .vList _ => (jsonDump p.2).map fun j => "const " ++ p.1 ++ " = " ++ j ++ ";\n"
  | .vDict _ => (jsonDump p.2).map fun j => "const " ++ p.1 ++ " = " ++ j ++ ";\n"
  | _ => none

/-- `execute_javascript`: write preamble plus code to a temp `.js` file
and run it with Node under a 10s timeout; the temp path is registered only
after the subprocess returns. -/
def execute_javascript (code : String) (line_number : Nat) (st : RState) (w : World) :
    RState × List Ev :=
  let js_code := if strStarts code "js." then strDrop code 3 else code
  let js_env := "/* Python variables */\n" ++
    joinWith "" ((st.vars.filter fun p => marshallable p.2).filterMap jsVarDecl)
  let fname := w.tempName st.tempCounter ++ ".js"
  let st1 := { st with tempCounter := st.tempCounter + 1, disk := st.disk ++ [fname] }
  let ev1 : List Ev := [.fileCreate fname (js_env ++ pyStrip js_code)]
  let cmd := ["node", fname]
  match w.proc cmd with
  | .notFound => (st1, ev1 ++ [.spawn cmd, .out "⚠️  [JS] Node.js not found. Please install Node.js."])
  | .timeout =>
    (st1, ev1 ++ [.spawn cmd,
      .out ("⚠️  [JS] Execution timeout at line " ++ toString line_number ++ ".")])
  | .done _ rout rerr =>
    let st2 := { st1 with temp_files := st1.temp_files ++ [fname] }
    (st2, ev1 ++ [.spawn cmd, .out rout] ++
      (if rerr != "" then [.errOut ("⚠️  JavaScript Runtime Error: " ++ rerr)] else []))

/-- The declaration marshalling one shared variable into the generated
Java `main`. -/
def javaVarDecl (p : String × PyVal) : Option String :=
  match p.2 with
  | .vBool b =>
    some ("        boolean " ++ p.1 ++ " = " ++ (if b then "true" else "false") ++ ";\n")
  | .vInt n => some ("        int " ++ p.1 ++ " = " ++ toString n ++ ";\n")
  | .vFloat l => some ("        double " ++ p.1 ++ " = " ++ l ++ ";\n")
  | .vStr s => some ("        String " ++ p.1 ++ " = \"" ++ escapeDQ s ++ "\";\n")
  | _ => none

/-- `execute_java`: wrap the code in a class named after the temp file,
compile with `javac` (20s timeout) and run (10s timeout); the `.class`
path exists (and is registered) only when compilation succeeded, and
nothing is registered when a timeout or missing-JDK error is raised. -/
def execute_java (code : String) (line_number : Nat) (st : RState) (w : World) :
    RState × List Ev :=
  let java_code := if strStarts code "java." then strDrop code 5 else code
  let cname := w.tempName st.tempCounter
  let fname := cname ++ ".java"
  let java_vars := "// Python variables\n" ++
    joinWith "" ((st.vars.filter fun p => marshallable p.2).filterMap javaVarDecl)
  let java_class := "public class " ++ cname ++ " \x7b\n    public static void main(String[] args) \x7b\n" ++
    java_vars ++ "        " ++ pyStrip java_code ++ "\n    \x7d\n\x7d"
  let st1 := { st with tempCounter := st.tempCounter + 1, disk := st.disk ++ [fname] }
  let ev1 : List Ev := [.fileCreate fname java_class]
  let compileCmd := ["javac", fname]
  match w.proc compileCmd with
  | .notFound =>
    (st1, ev1 ++ [.spawn compileCmd, .out "⚠️  [JAVA] Java compiler not found. Please install JDK."])
  | .timeout =>
    (st1, ev1 ++ [.spawn compileCmd,
      .out ("⚠️  [JAVA] Execution timeout at line " ++ toString line_number ++ ".")])
  | .done rc _ cerr =>
    if rc == 0 then
      let classFile := cname ++ ".class"
      let st2 := { st1 with disk := st1.disk ++ [classFile] }
      let runCmd := ["java", "-cp", w.tempDir, cname]
      match w.proc runCmd with
      | .notFound =>
        (st2, ev1 ++ [.spawn compileCmd, .spawn runCmd,
          .out "⚠️  [JAVA] Java compiler not found. Please install JDK."])
      | .timeout =>
        (st2, ev1 ++ [.spawn compileCmd, .spawn runCmd,
          .out ("⚠️  [JAVA] Execution timeout at line " ++ toString line_number ++ ".")])
      | .done _ rout rerr =>
        let st3 := { st2 with temp_files := st2.temp_files ++ [fname, classFile] }
        (st3, ev1 ++ [.spawn compileCmd, .spawn runCmd, .out rout] ++
          (if rerr != "" then [.errOut ("⚠️  Java Runtime Error: " ++ rerr)] else []))
    else
      let st2 := { st1 with temp_files := st1.temp_files ++ [fname] }
      (st2, ev1 ++ [.spawn compileCmd, .out ("❌ Java Compile Error: " ++ cerr)])

/-- `execute_php`: write `<?php … ?>` to a temp file and run the `php`
interpreter under a 10s timeout; registration happens only after the
subprocess returns. -/
def execute_php (code : String) (line_number : Nat) (st : RState) (w : World) :
    RState × List Ev :=
  let php_code := if strStarts code "php." then strDrop code 4 else code
  let fname := w.tempName st.tempCounter ++ ".php"
  let st1 := { st with tempCounter := st.tempCounter + 1, disk := st.disk ++ [fname] }
  let ev1 : List Ev := [.fileCreate fname ("<?php\n" ++ pyStrip php_code ++ "\n?>")]
  let cmd := ["php", fname]
  match w.proc cmd with
  | .notFound => (st1, ev1 ++ [.spawn cmd, .out "⚠️  [PHP] PHP interpreter not found. Please install PHP."])
  | .timeout =>
    (st1, ev1 ++ [.spawn cmd,
      .out ("⚠️  [PHP] Execution timeout at line " ++ toString line_number ++ ".")])
  | .done _ rout rerr =>
    let st2 := { st1 with temp_files := st1.temp_files ++ [fname] }
    (st2, ev1 ++ [.spawn cmd, .out rout] ++
      (if rerr != "" then [.errOut ("⚠️  PHP Runtime Error: " ++ rerr)] else []))

/-- `execute_rust`: uses a `TemporaryDirectory` context manager, so the
created files are deleted on every exit path (including raised timeouts);
nothing is ever added to `self.temp_files`. -/
def execute_rust (code : String) (line_number : Nat) (st : RState) (w : World) :
    RState × List Ev :=
  let rust_code := if strStarts code "rust." then strDrop code 5 else code
  let dir := w.tempName st.tempCounter
  let rsFile := dir ++ "/main.rs"
  let exe := dir ++ "/main"
  let prog := "fn main() \x7b\n    " ++ pyStrip rust_code ++ "\n\x7d"
  let st1 := { st with tempCounter := st.tempCounter + 1, disk := st.disk ++ [rsFile] }
  let ev1 : List Ev := [.fileCreate rsFile prog]
  let compileCmd := ["rustc", rsFile, "-o", exe]
  let branch : RState × List Ev :=
    match w.proc compileCmd with
    | .notFound =>
      (st1, ev1 ++ [.spawn compileCmd, .out "⚠️  [RUST] Rust compiler not found. Please install Rust."])
    | .timeout =>
      (st1, ev1 ++ [.spawn compileCmd,
        .out ("⚠️  [RUST] Execution timeout at line " ++ toString line_number ++ ".")])
    | .done rc _ cerr =>
      if rc == 0 then
        let st2 := { st1 with disk := st1.disk ++ [exe] }
        match w.proc [exe] with
        | .notFound =>
          (st2, ev1 ++ [.spawn compileCmd, .spawn [exe],
            .out "⚠️  [RUST] Rust compiler not found. Please install Rust."])
        | .timeout =>
          (st2, ev1 ++ [.spawn compileCmd, .spawn [exe],
            .out ("⚠️  [RUST] Execution timeout at line " ++ toString line_number ++ ".")])
        | .done _ rout rerr =>
          (st2, ev1 ++ [.spawn compileCmd, .spawn [exe], .out rout] ++
            (if rerr != "" then [.errOut ("⚠️  Rust Runtime Error: " ++ rerr)] else []))
      else
        (st1, ev1 ++ [.spawn compileCmd, .out ("❌ Rust Compile Error: " ++ cerr)])
  ({ branch.1 with disk := branch.1.disk.filter fun f => f ≠ rsFile && f ≠ exe }, branch.2)

/-! ## The primary-language executor and the dispatcher -/

/-- The fixed execution environment built by `execute_python` before the
shared variables and functions are layered on top (`__builtins__` is an
allow-list dictionary, opaque here; `vars`/`globals`/`locals` are
lambdas). -/
def pyBaseEnv : Env :=
  [("math", .vModule "math"), ("random", .vModule "random"),
   ("datetime", .vModule "datetime"), ("time", .vModule "time"),
   ("print", .vCallable "print"), ("input", .vCallable "input"),
   ("len", .vCallable "len"), ("str", .vCallable "str"), ("int", .vCallable "int"),
   ("float", .vCallable "float"), ("list", .vCallable "list"), ("dict", .vCallable "dict"),
   ("set", .vCallable "set"), ("tuple", .vCallable "tuple"), ("range", .vCallable "range"),
   ("abs", .vCallable "abs"), ("min", .vCallable "min"), ("max", .vCallable "max"),
   ("sum", .vCallable "sum"), ("sorted", .vCallable "sorted"),
   ("enumerate", .vCallable "enumerate"), ("zip", .vCallable "zip"),
   ("map", .vCallable "map"), ("filter", .vCallable "filter"),
   ("__builtins__", .vOpaque "builtins_dict"),
   ("vars", .vCallable "vars"), ("globals", .vCallable "globals"),
   ("locals", .vCallable "locals")]

/-- The names excluded from the post-`exec` state harvest. -/
def excludedNames : List String :=
  ["math", "random", "datetime", "time", "print", "input",
   "len", "str", "int", "float", "list", "dict", "set", "tuple", "range",
   "abs", "min", "max", "sum", "sorted", "enumerate", "zip", "map", "filter",
   "__builtins__", "vars", "globals", "locals"]

/-- The post-`exec` harvest loop of `execute_python`: each surviving
binding goes to `self.functions` when callable and to `self.variables`
otherwise. -/
def harvestBindings (items : List (String × PyVal)) (st : RState) : RState :=
  items.foldl (fun s kv =>
    if kv.1 ∈ excludedNames then s
    else if isCallable kv.2 then { s with functions := envInsert s.functions kv.1 kv.2 }
    else { s with vars := envInsert s.vars kv.1 kv.2 }) st

/-- `execute_python`: run `exec` over the layered environment, then merge
the surviving bindings back — callables into `self.functions`, the rest
into `self.variables`.  A raised error becomes a `Python error at line …`
exception propagated to the dispatcher.  The stdout produced by the
fragment itself flows through the real `print` and is not modelled. -/
def execute_python (code : String) (line_number : Nat) (st : RState) (w : World) :
    Option String × RState × List Ev :=
  let env0 := envUpdateAll (envUpdateAll pyBaseEnv st.vars) st.functions
  match w.pyExec code env0 with
  | .error e => (some ("Python error at line " ++ toString line_number ++ ": " ++ e), st, [])
  | .ok items => (none, harvestBindings items st, [])

/-- `language_stats[lang] = language_stats.get(lang, 0) + 1`. -/
def statsBump (stats : List (String × Nat)) (lang : String) : List (String × Nat) :=
  match stats with
  | [] => [(lang, 1)]
  | (k, n) :: rest =>
    if k == lang then (k, n + 1) :: rest else (k, n) :: statsBump rest lang

/-- The body of the `try` block of `execute_block`: dispatch on the
fragment's language tag.  The first component is a raised, uncaught
exception (only `execute_python` and the fast path of `execute_cpp` can
raise; the other executors catch everything internally). -/
def dispatchTry (b : Block) (st : RState) (w : World) : Option String × RState × List Ev :=
  if b.type == "cpp" then execute_cpp b.content b.line st w
  else if b.type == "py" then execute_python b.content b.line st w
  else if b.type == "js" then
    let r := execute_javascript b.content b.line st w
    (none, r.1, r.2)
  else if b.type == "java" then
    let r := execute_java b.content b.line st w
    (none, r.1, r.2)
  else if b.type == "php" then
    let r := execute_php b.content b.line st w
    (none, r.1, r.2)
  else if b.type == "rust" then
    let r := execute_rust b.content b.line st w
    (none, r.1, r.2)
  else (none, st, [.out ("⚠️  Unknown code type: " ++ b.type)])

/-- The statistics/test bookkeeping of `execute_block` performed before
the `try` block. -/
def preBlock (b : Block) (st : RState) : RState :=
  let st1 := { st with language_stats := statsBump st.language_stats b.type,
                       total_executions := st.total_executions + 1 }
  if containsSub b.content "Test" && b.type == "py" then
    { st1 with test_start_times := st1.test_start_times ++
      [match findCharFrom b.content.data ':' 0 with
       | some i => strTake b.content i
       | none => b.content] }
  else st1

/-- `execute_block`: bump the per-language and total execution counters,
record a test start time when relevant, run the dispatch, and catch any
raised error as a line-attributed diagnostic (the traceback print is not
modelled). -/
def execute_block (b : Block) (st : RState) (w : World) : RState × List Ev :=
  match dispatchTry b (preBlock b st) w with
  | (some e, st3, tr) =>
    (st3, tr ++ [.out ("❌ Execution error at line " ++ toString b.line ++ ": " ++ e)])
  | (none, st3, tr) => (st3, tr)

/-- Fold `execute_block` over the merged fragment list, threading state
and concatenating traces. -/
def runBlocks (bs : List Block) (st : RState) (w : World) : RState × List Ev :=
  match bs with
  | [] => (st, [])
  | b :: rest =>
    let r := execute_block b st w
    let r2 := runBlocks rest r.1 w
    (r2.1, r.2 ++ r2.2)

/-- `_initialize_globals`: install the built-in bindings (including the
runtime object itself under the name `cpp`) into the shared variables. -/
def initGlobalsList : Env :=
  [("global_start_time", .vOpaque "global_start_time"),
   ("datetime", .vModule "datetime"), ("time", .vModule "time"),
   ("math", .vModule "math"), ("random", .vModule "random"),
   ("cpp", .vRuntime),
   ("len", .vCallable "len"), ("str", .vCallable "str"), ("int", .vCallable "int"),
   ("float", .vCallable "float"), ("list", .vCallable "list"), ("dict", .vCallable "dict"),
   ("set", .vCallable "set"), ("tuple", .vCallable "tuple"), ("range", .vCallable "range"),
   ("print", .vCallable "_enhanced_print"), ("input", .vCallable "input"),
   ("abs", .vCallable "abs"), ("min", .vCallable "min"), ("max", .vCallable "max"),
   ("sum", .vCallable "sum"), ("sorted", .vCallable "sorted"),
   ("enumerate", .vCallable "enumerate"), ("zip", .vCallable "zip"),
   ("map", .vCallable "map"), ("filter", .vCallable "filter")]

def _initialize_globals (st : RState) : RState :=
  { st with vars := envUpdateAll st.vars initGlobalsList }

/-- Python `value.strip('"\'')`. -/
def stripQuoteChars (s : String) : String :=
  let isQ : Char → Bool := fun c => c == '"' || c == '\''
  ⟨((s.data.dropWhile isQ).reverse.dropWhile isQ).reverse⟩

/-- One `python_import` item of `_load_modules`: import through the
module oracle; a success is bound in the shared variables, a failure
prints a warning (the exception text is elided). -/
def loadItem (w : World) (acc2 : RState × List Ev) (item : DirEntry) : RState × List Ev :=
  let module_name := stripQuoteChars item.value
  if w.importOk module_name then
    ({ acc2.1 with vars := envInsert acc2.1.vars module_name (.vModule module_name) },
     acc2.2 ++ [.out ("📦 Imported module: " ++ module_name)])
  else
    (acc2.1, acc2.2 ++ [.out ("⚠️  Failed to import module " ++ module_name)])

/-- One directive key of `_load_modules`: only `python_import` acts. -/
def loadKey (w : World) (acc : RState × List Ev) (p : String × List DirEntry) :
    RState × List Ev :=
  if p.1 == "python_import" then p.2.foldl (loadItem w) acc else acc

/-- `_load_modules`: fold the directive keys; only `python_import`
entries are imported, other directive keys are ignored. -/
def _load_modules (directives : Directives) (st : RState) (w : World) : RState × List Ev :=
  directives.foldl (loadKey w) (st, [])

/-- The 50-dash separator line. -/
def dashLine : String := ⟨List.replicate 50 '-'⟩

/-- `_print_execution_stats` (float time formatting not modelled). -/
def _print_execution_stats (st : RState) (w : World) : List Ev :=
  [.out "📊 Language execution stats:"] ++
  (st.language_stats.map fun p => .out ("   " ++ p.1 ++ ": " ++ toString p.2 ++ " blocks")) ++
  [.out ("📊 Total blocks executed: " ++ toString st.total_executions),
   .out ("⏱️  Total execution time: " ++ toString w.elapsed ++ "s")]

/-- `_cleanup_temp_files`: unlink every tracked file that still exists
(errors swallowed) and reset the tracker. -/
def _cleanup_temp_files (st : RState) : RState :=
  { st with disk := st.disk.filter (fun f => !st.temp_files.contains f), temp_files := [] }

/-- The state threading of `execute` before the fragment loop:
`_initialize_globals` then `_load_modules`. -/
def stateSetup (prog : Parsed) (st0 : RState) (w : World) : RState × List Ev :=
  _load_modules prog.directives (_initialize_globals st0) w

/-- `execute` (the Execution Dispatcher): banner, setup, merge, run every
fragment, report the end-of-run summary and statistics, then clean up
temporary files. -/
def execute (prog : Parsed) (st0 : RState) (w : World) : RState × List Ev :=
  let s := stateSetup prog st0 w
  let merged := _merge_python_blocks prog.code_blocks
  let r := runBlocks merged s.1 w
  let st3 := r.1
  let summary : List Ev :=
    [.out dashLine, .out "✅ Execution Completed",
     .out ("📊 Total execution time: " ++ toString w.elapsed ++ "s"),
     .out ("📊 Final variables: " ++ toString st3.vars.length),
     .out ("📊 Final functions: " ++ toString st3.functions.length)]
  (_cleanup_temp_files st3,
   [.out "🚀 LF Runtime Started", .out dashLine] ++ s.2 ++
   [.out ("📊 Python blocks merged: " ++ toString prog.code_blocks.length ++ " -> " ++
     toString merged.length)] ++
   r.2 ++ summary ++ _print_execution_stats st3 w)


/-! ## General helper lemmas -/
instance {α β : Type} [DecidableEq α] [DecidableEq β] : DecidableEq (Except α β) :=
  fun a b =>
    match a, b with
    | .ok x, .ok y => if h : x = y then .isTrue (by rw [h]) else .isFalse (by simp [h])
    | .error x, .error y => if h : x = y then .isTrue (by rw [h]) else .isFalse (by simp [h])
    | .ok _, .error _ => .isFalse (by simp)
    | .error _, .ok _ => .isFalse (by simp)

theorem strApp_assoc (a b c : String) : a ++ b ++ c = a ++ (b ++ c) := by
  cases a; cases b; cases c
  show String.mk _ = String.mk _
  rw [List.append_assoc]

theorem strApp_nil (a : String) : a ++ "" = a := by
  cases a
  show String.mk _ = String.mk _
  rw [List.append_nil]

theorem envLookup_insert_self (e : Env) (k : String) (v : PyVal) :
    envLookup (envInsert e k v) k = some v := by
  induction e with
  | nil => simp [envInsert, envLookup, List.find?]
  | cons p rest ih =>
    cases p with
    | mk k0 v0 =>
      rw [envInsert]
      by_cases h : (k0 == k) = true
      · rw [if_pos h]
        simp [envLookup, List.find?]
      · rw [if_neg h]
        simpa [envLookup, List.find?, h] using ih

theorem envLookup_insert_ne (e : Env) (k k' : String) (v : PyVal) (h : ¬(k = k')) :
    envLookup (envInsert e k v) k' = envLookup e k' := by
  induction e with
  | nil =>
    have hf : (k == k') = false := by simpa using h
    simp [envInsert, envLookup, List.find?, hf]
  | cons p rest ih =>
    cases p with
    | mk k0 v0 =>
      rw [envInsert]
      by_cases h2 : (k0 == k) = true
      · rw [if_pos h2]
        have hk : (k == k') = false := by simpa using h
        have hk0 : (k0 == k') = false := by
          have : k0 = k := by simpa using h2
          simpa [this] using h
        simp [envLookup, List.find?, hk, hk0]
      · rw [if_neg h2]
        by_cases h3 : (k0 == k') = true
        · simp [envLookup, List.find?, h3]
        · simpa [envLookup, List.find?, h3] using ih

theorem envLookup_none_of_not_key (e : Env) (k : String)
    (h : k ∉ e.map Prod.fst) : envLookup e k = none := by
  induction e with
  | nil => rfl
  | cons p rest ih =>
    simp only [List.map_cons, List.mem_cons] at h
    push_neg at h
    have hne : (p.1 == k) = false := by simpa using (Ne.symm h.1)
    simp only [envLookup, List.find?, hne]
    exact ih h.2

theorem envLookup_updateAll (dst src : Env) (hnd : (src.map Prod.fst).Nodup)
    (k : String) :
    envLookup (envUpdateAll dst src) k =
      match envLookup src k with
      | some v => some v
      | none => envLookup dst k := by
  induction src generalizing dst with
  | nil => rfl
  | cons p rest ih =>
    simp only [List.map_cons, List.nodup_cons] at hnd
    have hstep : envUpdateAll dst (p :: rest) = envUpdateAll (envInsert dst p.1 p.2) rest := rfl
    have hrec := ih (envInsert dst p.1 p.2) hnd.2
    rw [hstep, hrec]
    by_cases h : (p.1 == k) = true
    · have hk : p.1 = k := by simpa using h
      have hnone : envLookup rest k = none := by
        apply envLookup_none_of_not_key
        rw [← hk]; exact hnd.1
      rw [hnone]
      have : envLookup (p :: rest) k = some p.2 := by
        simp [envLookup, List.find?, h]
      rw [this]
      rw [hk, envLookup_insert_self]
    · have : envLookup (p :: rest) k = envLookup rest k := by
        simp [envLookup, List.find?, h]
      rw [this]
      cases hr : envLookup rest k with
      | some q => rfl
      | none =>
        exact envLookup_insert_ne dst p.1 k p.2 (by simpa using h)

end LF

namespace LF

theorem cppFull_frame (c : String) (l : Nat) (st : RState) (w : World) :
    (_execute_cpp_full c l st w).1.vars = st.vars ∧
    (_execute_cpp_full c l st w).1.functions = st.functions ∧
    (_execute_cpp_full c l st w).1.total_executions = st.total_executions ∧
    (_execute_cpp_full c l st w).1.language_stats = st.language_stats ∧
    (_execute_cpp_full c l st w).1.test_start_times = st.test_start_times := by
  simp only [_execute_cpp_full]
  repeat' split
  all_goals simp

theorem evalApply_stats (st : RState) (r : EvalRes) :
    (evalApply st r).total_executions = st.total_executions ∧
    (evalApply st r).language_stats = st.language_stats ∧
    (evalApply st r).test_start_times = st.test_start_times := ⟨rfl, rfl, rfl⟩

theorem evalTail_stats (expr : String) (st : RState) (w : World) :
    (evalTail expr st w).2.1.total_executions = st.total_executions ∧
    (evalTail expr st w).2.1.language_stats = st.language_stats ∧
    (evalTail expr st w).2.1.test_start_times = st.test_start_times := by
  simp only [evalTail]
  repeat' split
  all_goals first
    | exact ⟨rfl, rfl, rfl⟩
    | exact evalApply_stats st _

theorem evalSimple_stats (expr0 : String) (st : RState) (w : World) :
    (_evaluate_expression_simple expr0 st w).2.1.total_executions = st.total_executions ∧
    (_evaluate_expression_simple expr0 st w).2.1.language_stats = st.language_stats ∧
    (_evaluate_expression_simple expr0 st w).2.1.test_start_times = st.test_start_times := by
  simp only [_evaluate_expression_simple]
  repeat' split
  all_goals first
    | exact ⟨rfl, rfl, rfl⟩
    | exact evalTail_stats _ st w

theorem replaceLoop_stats (params : List String) (res : String) (st : RState) (w : World) :
    (replaceLoop params res st w).2.1.total_executions = st.total_executions ∧
    (replaceLoop params res st w).2.1.language_stats = st.language_stats ∧
    (replaceLoop params res st w).2.1.test_start_times = st.test_start_times := by
  induction params generalizing res st with
  | nil => exact ⟨rfl, rfl, rfl⟩
  | cons p rest ih =>
    rw [replaceLoop]
    split
    · next e st1 ev1 heq =>
      have h := evalSimple_stats p st w
      rw [heq] at h
      exact h
    · next v st1 ev1 heq =>
      have h := evalSimple_stats p st w
      rw [heq] at h
      split
      · next a b heq2 =>
        have h2 := ih (strTake res a ++ pyStr v ++ strDrop res b) st1
        exact ⟨h2.1.trans h.1, h2.2.1.trans h.2.1, h2.2.2.trans h.2.2⟩
      · exact h

theorem printfUltimate_stats (content0 : String) (st : RState) (w : World) :
    (_parse_printf_ultimate content0 st w).2.1.total_executions = st.total_executions ∧
    (_parse_printf_ultimate content0 st w).2.1.language_stats = st.language_stats ∧
    (_parse_printf_ultimate content0 st w).2.1.test_start_times = st.test_start_times := by
  simp only [_parse_printf_ultimate]
  repeat' split
  all_goals first
    | exact ⟨rfl, rfl, rfl⟩
    | exact replaceLoop_stats _ _ st w

theorem printfUltimate_stats_eq (content0 : String) (st : RState) (w : World)
    (x : Except String String) (st1 : RState) (ev1 : List Ev)
    (h : _parse_printf_ultimate content0 st w = (x, st1, ev1)) :
    st1.total_executions = st.total_executions ∧
    st1.language_stats = st.language_stats ∧
    st1.test_start_times = st.test_start_times := by
  have h2 := printfUltimate_stats content0 st w
  rw [h] at h2
  exact h2

theorem execute_cpp_frame (c : String) (l : Nat) (st : RState) (w : World) :
    (execute_cpp c l st w).2.1.total_executions = st.total_executions ∧
    (execute_cpp c l st w).2.1.language_stats = st.language_stats ∧
    (execute_cpp c l st w).2.1.test_start_times = st.test_start_times := by
  simp only [execute_cpp]
  repeat' split
  all_goals first
    | (exact ⟨(cppFull_frame _ _ st w).2.2.1, (cppFull_frame _ _ st w).2.2.2.1,
        (cppFull_frame _ _ st w).2.2.2.2⟩)
    | (rename_i heq; exact printfUltimate_stats_eq _ st w _ _ _ heq)
    | exact ⟨rfl, rfl, rfl⟩

theorem execute_js_frame (c : String) (l : Nat) (st : RState) (w : World) :
    (execute_javascript c l st w).1.vars = st.vars ∧
    (execute_javascript c l st w).1.functions = st.functions ∧
    (execute_javascript c l st w).1.total_executions = st.total_executions ∧
    (execute_javascript c l st w).1.language_stats = st.language_stats ∧
    (execute_javascript c l st w).1.test_start_times = st.test_start_times := by
  simp only [execute_javascript]
  repeat' split
  all_goals simp

theorem execute_java_frame (c : String) (l : Nat) (st : RState) (w : World) :
    (execute_java c l st w).1.vars = st.vars ∧
    (execute_java c l st w).1.functions = st.functions ∧
    (execute_java c l st w).1.total_executions = st.total_executions ∧
    (execute_java c l st w).1.language_stats = st.language_stats ∧
    (execute_java c l st w).1.test_start_times = st.test_start_times := by
  simp only [execute_java]
  repeat' split
  all_goals simp

theorem execute_php_frame (c : String) (l : Nat) (st : RState) (w : World) :
    (execute_php c l st w).1.vars = st.vars ∧
    (execute_php c l st w).1.functions = st.functions ∧
    (execute_php c l st w).1.total_executions = st.total_executions ∧
    (execute_php c l st w).1.language_stats = st.language_stats ∧
    (execute_php c l st w).1.test_start_times = st.test_start_times := by
  simp only [execute_php]
  repeat' split
  all_goals simp

theorem execute_rust_frame (c : String) (l : Nat) (st : RState) (w : World) :
    (execute_rust c l st w).1.vars = st.vars ∧
    (execute_rust c l st w).1.functions = st.functions ∧
    (execute_rust c l st w).1.total_executions = st.total_executions ∧
    (execute_rust c l st w).1.language_stats = st.language_stats ∧
    (execute_rust c l st w).1.test_start_times = st.test_start_times := by
  simp only [execute_rust]
  repeat' split
  all_goals simp

theorem harvest_frame (items : List (String × PyVal)) (st : RState) :
    (harvestBindings items st).temp_files = st.temp_files ∧
    (harvestBindings items st).total_executions = st.total_executions ∧
    (harvestBindings items st).language_stats = st.language_stats ∧
    (harvestBindings items st).test_start_times = st.test_start_times ∧
    (harvestBindings items st).tempCounter = st.tempCounter ∧
    (harvestBindings items st).disk = st.disk := by
  induction items generalizing st with
  | nil => exact ⟨rfl, rfl, rfl, rfl, rfl, rfl⟩
  | cons kv rest ih =>
    have hstep : harvestBindings (kv :: rest) st = harvestBindings rest
        (if kv.1 ∈ excludedNames then st
         else if isCallable kv.2 then { st with functions := envInsert st.functions kv.1 kv.2 }
         else { st with vars := envInsert st.vars kv.1 kv.2 }) := rfl
    rw [hstep]
    split
    · exact ih st
    · split
      · exact ih _
      · exact ih _

theorem execute_python_frame (c : String) (l : Nat) (st : RState) (w : World) :
    (execute_python c l st w).2.1.temp_files = st.temp_files ∧
    (execute_python c l st w).2.1.total_executions = st.total_executions ∧
    (execute_python c l st w).2.1.language_stats = st.language_stats ∧
    (execute_python c l st w).2.1.test_start_times = st.test_start_times := by
  simp only [execute_python]
  split
  · exact ⟨rfl, rfl, rfl, rfl⟩
  · exact ⟨(harvest_frame _ st).1, (harvest_frame _ st).2.1,
      (harvest_frame _ st).2.2.1, (harvest_frame _ st).2.2.2.1⟩

set_option maxHeartbeats 1000000 in
theorem dispatchTry_total (b : Block) (st : RState) (w : World) :
    (dispatchTry b st w).2.1.total_executions = st.total_executions := by
  simp only [dispatchTry]
  repeat' split
  all_goals first
    | exact (execute_cpp_frame _ _ st w).1
    | exact (execute_python_frame _ _ st w).2.1
    | exact (execute_js_frame _ _ st w).2.2.1
    | exact (execute_java_frame _ _ st w).2.2.1
    | exact (execute_php_frame _ _ st w).2.2.1
    | exact (execute_rust_frame _ _ st w).2.2.1
    | rfl


theorem loadItem_total (w : World) (acc2 : RState × List Ev) (item : DirEntry) :
    (loadItem w acc2 item).1.total_executions = acc2.1.total_executions := by
  simp only [loadItem]
  split
  · rfl
  · rfl

theorem loadFold_total (w : World) (items : List DirEntry) (acc2 : RState × List Ev) :
    (items.foldl (loadItem w) acc2).1.total_executions = acc2.1.total_executions := by
  induction items generalizing acc2 with
  | nil => rfl
  | cons item rest ih => rw [List.foldl_cons, ih, loadItem_total]

theorem loadKey_total (w : World) (acc : RState × List Ev) (p : String × List DirEntry) :
    (loadKey w acc p).1.total_executions = acc.1.total_executions := by
  rw [loadKey]
  split
  · exact loadFold_total w p.2 acc
  · rfl

theorem loadModulesFold_total (w : World) (ds : Directives) (acc : RState × List Ev) :
    (ds.foldl (loadKey w) acc).1.total_executions = acc.1.total_executions := by
  induction ds generalizing acc with
  | nil => rfl
  | cons p rest ih => rw [List.foldl_cons, ih, loadKey_total]

theorem pairFst_total (st : RState) (tr : List Ev) :
    ((st, tr) : RState × List Ev).1.total_executions = st.total_executions := rfl

theorem initGlobals_total (st : RState) :
    (_initialize_globals st).total_executions = st.total_executions := by
  have key : ∀ v, ({ st with vars := v } : RState).total_executions = st.total_executions :=
    fun _ => rfl
  have h : _initialize_globals st = { st with vars := envUpdateAll st.vars initGlobalsList } :=
    rfl
  rw [h, key]

theorem stateSetup_total (prog : Parsed) (st0 : RState) (w : World) :
    (stateSetup prog st0 w).1.total_executions = st0.total_executions := by
  have h := loadModulesFold_total w prog.directives (_initialize_globals st0, [])
  rw [pairFst_total, initGlobals_total] at h
  exact h

theorem preBlock_total (b : Block) (st : RState) :
    (preBlock b st).total_executions = st.total_executions + 1 := by
  simp only [preBlock]
  split
  · rfl
  · rfl

theorem execute_block_total (b : Block) (st : RState) (w : World) :
    (execute_block b st w).1.total_executions = st.total_executions + 1 := by
  have hd := dispatchTry_total b (preBlock b st) w
  rw [preBlock_total] at hd
  simp only [execute_block]
  split
  · rename_i e st3 tr heq
    rw [heq] at hd
    exact hd
  · rename_i st3 tr heq
    rw [heq] at hd
    exact hd

theorem execute_block_err (b : Block) (st : RState) (w : World) (e : String)
    (h : (dispatchTry b (preBlock b st) w).1 = some e) :
    Ev.out ("❌ Execution error at line " ++ toString b.line ++ ": " ++ e)
      ∈ (execute_block b st w).2 := by
  simp only [execute_block]
  split
  · rename_i e2 st3 tr heq
    rw [heq] at h
    simp only [Option.some.injEq] at h
    subst h
    simp
  · rename_i st3 tr heq
    rw [heq] at h
    exact absurd h (by simp)

theorem runBlocks_total (bs : List Block) (st : RState) (w : World) :
    (runBlocks bs st w).1.total_executions = st.total_executions + bs.length := by
  induction bs generalizing st with
  | nil => rfl
  | cons b rest ih =>
    have h1 : (runBlocks (b :: rest) st w).1 =
        (runBlocks rest (execute_block b st w).1 w).1 := rfl
    rw [h1, ih, execute_block_total, List.length_cons]
    omega

theorem runBlocks_append (xs ys : List Block) (st : RState) (w : World) :
    runBlocks (xs ++ ys) st w =
      ((runBlocks ys (runBlocks xs st w).1 w).1,
       (runBlocks xs st w).2 ++ (runBlocks ys (runBlocks xs st w).1 w).2) := by
  induction xs generalizing st with
  | nil => rfl
  | cons b rest ih =>
    have h1 : runBlocks ((b :: rest) ++ ys) st w =
        ((runBlocks (rest ++ ys) (execute_block b st w).1 w).1,
         (execute_block b st w).2 ++
           (runBlocks (rest ++ ys) (execute_block b st w).1 w).2) := rfl
    have h2 : runBlocks (b :: rest) st w =
        ((runBlocks rest (execute_block b st w).1 w).1,
         (execute_block b st w).2 ++ (runBlocks rest (execute_block b st w).1 w).2) := rfl
    rw [h1, ih, h2]
    simp [List.append_assoc]

/-! ## Claim theorems -/

theorem dirLookup_append_self (ds : Directives) (k : String) (e : DirEntry) :
    dirLookup (dirAppend ds k e) k = dirLookup ds k ++ [e] := by
  induction ds with
  | nil => simp [dirAppend, dirLookup]
  | cons p rest ih =>
    cases p with
    | mk k0 es =>
      rw [dirAppend]
      by_cases h : k0 = k
      · rw [if_pos h]
        simp [dirLookup, h]
      · rw [if_neg h]
        simp [dirLookup, h, ih]

theorem dirLookup_append_ne (ds : Directives) (k k2 : String) (e : DirEntry)
    (h : ¬(k2 = k)) :
    dirLookup (dirAppend ds k e) k2 = dirLookup ds k2 := by
  have hne : ¬(k = k2) := fun hh => h hh.symm
  induction ds with
  | nil =>
    simp only [dirAppend, dirLookup]
    rw [if_neg hne]
  | cons p rest ih =>
    cases p with
    | mk k0 es =>
      rw [dirAppend]
      by_cases h0 : k0 = k
      · rw [if_pos h0]
        simp only [dirLookup, h0]
        rw [if_neg hne, if_neg hne]
      · rw [if_neg h0]
        by_cases h2 : k0 = k2
        · simp [dirLookup, h2]
        · simp [dirLookup, h2, ih]

/-- C6 (amended): a `#` line whose body splits into key and value stores a
directive only when the lowercased key is recognized
(`python_import`/`name`/`author`/`description`); any other key is silently
dropped.  Among stored directives sharing one key, entries append in
insertion order, and appends leave other keys untouched. -/
theorem c6_directive_keys (line : String) (i : Nat) (dirs : Directives)
    (k v : String) (hsplit : splitFirstSpace (strDrop line 1) = some (k, v))
    (hq : strStarts v "\"" = false) (hq2 : strStarts v "'" = false)
    (hc : findSub v.data "//".data = none) :
    (strLower k ∈ recognizedKeys →
      (strLower k = "python_import" → isValidModuleName (pyStrip v) = true) →
      parseDirectiveLine line i dirs = .ok (dirAppend dirs k ⟨pyStrip v, i + 1⟩)) ∧
    (strLower k ∉ recognizedKeys → parseDirectiveLine line i dirs = .ok dirs) ∧
    (∀ ds key e, dirLookup (dirAppend ds key e) key = dirLookup ds key ++ [e]) ∧
    (∀ ds key key2 e, ¬(key2 = key) →
      dirLookup (dirAppend ds key e) key2 = dirLookup ds key2) := by
  refine ⟨?_, ?_, fun ds key e => dirLookup_append_self ds key e,
    fun ds key key2 e h => dirLookup_append_ne ds key key2 e h⟩
  · intro hrec hvalid
    simp only [parseDirectiveLine, hsplit, hq, hq2, Bool.or_self, Bool.false_eq_true,
      if_false, hc]
    rw [if_pos hrec]
    by_cases hpi : strLower k = "python_import"
    · have hb : (strLower k == "python_import" && !isValidModuleName (pyStrip v)) = false := by
        simp [hpi, hvalid hpi]
      simp [hb]
    · have hb : (strLower k == "python_import" && !isValidModuleName (pyStrip v)) = false := by
        simp [hpi]
      simp [hb]
  · intro hrec
    simp only [parseDirectiveLine, hsplit, hq, hq2, Bool.or_self, Bool.false_eq_true,
      if_false, hc]
    rw [if_neg hrec]

/-- C6 (counterexample): the line `#foo bar` carries a key and a value,
yet the parse yields no directive at all — the handler stores only
recognized keys, so arbitrary keys do not produce a Directive. -/
theorem c6_counterexample :
    parse_lf_source none "#foo bar" = Except.ok (⟨[], []⟩, []) := by decide

/-- C6 (witness): concrete instance of the amended directive-storage
behaviour for a recognized key. -/
theorem c6_witness :
    parseDirectiveLine "#name hello" 0 [] = .ok [("name", [⟨"hello", 1⟩])] :=
  (c6_directive_keys "#name hello" 0 [] "name" "hello" (by decide) (by decide)
    (by decide) (by decide)).1 (by decide) (fun hpi => absurd hpi (by decide))

/-- C8: parsing `#name "a // b"` yields the directive value `a // b`,
while parsing the unquoted `#name a // b` yields the value `a` (the text
after the inline-comment marker dropped and the remainder trimmed). -/
theorem c8_directive_quoting :
    parse_lf_source none "#name \"a // b\"" =
      Except.ok (⟨[("name", [⟨"a // b", 1⟩])], []⟩, []) ∧
    parse_lf_source none "#name a // b" =
      Except.ok (⟨[("name", [⟨"a", 1⟩])], []⟩, []) := by decide

/-- C9 (amended): a quoted directive value missing its closing quote is a
fatal parse error naming the line (for any key); the identifier-grammar
validation applies only to the `python_import` key, whose violations are
fatal and name the line; any parse error surfaces from the compile step as
exit status 1. -/
theorem c9_parse_failures (line : String) (i : Nat) (dirs : Directives)
    (k v : String) (hsplit : splitFirstSpace (strDrop line 1) = some (k, v)) :
    (strStarts v "\"" = true → findCharFrom v.data '"' 1 = none →
      parseDirectiveLine line i dirs =
        .error ("Unmatched quote at line " ++ toString (i + 1))) ∧
    (strStarts v "\"" = false → strStarts v "'" = false →
      findSub v.data "//".data = none →
      strLower k = "python_import" → isValidModuleName (pyStrip v) = false →
      parseDirectiveLine line i dirs =
        .error ("Invalid module name '" ++ pyStrip v ++ "' at line " ++ toString (i + 1))) ∧
    (∀ s e, parse_lf_source none s = .error e → lf_compile_exit s = 1) ∧
    (parse_lf_source none "#python_import bad-name" =
        .error "Invalid module name 'bad-name' at line 1" ∧
      lf_compile_exit "#python_import bad-name" = 1 ∧
      parse_lf_source none "#name \"abc" = .error "Unmatched quote at line 1" ∧
      lf_compile_exit "#name \"abc" = 1) := by
  refine ⟨?_, ?_, ?_, by decide⟩
  · intro hq hfind
    have hhead : v.data.headD '"' = '"' := by
      have hq' : (v.data.take 1 == ['"']) = true := by simpa [strStarts] using hq
      cases hv : v.data with
      | nil => rw [hv] at hq'; exact absurd hq' (by decide)
      | cons c r =>
        rw [hv] at hq'
        have hc : c = '"' := by simpa using hq'
        simp [hc]
    simp only [parseDirectiveLine, hsplit, hq, Bool.true_or, if_true, hhead, hfind]
  · intro hq hq2 hc hpi hinv
    simp only [parseDirectiveLine, hsplit, hq, hq2, Bool.or_self, Bool.false_eq_true,
      if_false, hc]
    have hrec : strLower k ∈ recognizedKeys := by rw [hpi]; decide
    rw [if_pos hrec]
    have hb : (strLower k == "python_import" && !isValidModuleName (pyStrip v)) = true := by
      simp [hpi, hinv]
    simp [hb]
  · intro s e h
    simp only [lf_compile_exit, h]

/-- C9 (witness): concrete instance of the fatal `python_import`
validation. -/
theorem c9_witness :
    parseDirectiveLine "#python_import 9x" 0 [] =
      .error "Invalid module name '9x' at line 1" :=
  (c9_parse_failures "#python_import 9x" 0 [] "python_import" "9x"
    (by decide)).2.1 (by decide) (by decide) (by decide) (by decide) (by decide)

/-- C9 (counterexample): the recognized semantic key `name` accepts the
value `!!!`, which violates the identifier grammar, without any parse
error — the grammar is enforced only for `python_import` — and the
compile step exits 0. -/
theorem c9_counterexample :
    parse_lf_source none "#name !!!" =
      Except.ok (⟨[("name", [⟨"!!!", 1⟩])], []⟩, []) ∧
    isValidModuleName "!!!" = false ∧
    lf_compile_exit "#name !!!" = 0 := by decide

theorem parseLoop_fst_indep (lines : List String) (s1 s2 : Option Screener) :
    ∀ fuel i dirs blocks w1 w2,
      (parseLoop s1 lines fuel i dirs blocks w1).map Prod.fst =
      (parseLoop s2 lines fuel i dirs blocks w2).map Prod.fst := by
  intro fuel
  induction fuel with
  | zero => intro i dirs blocks w1 w2; rfl
  | succ n ih =>
    intro i dirs blocks w1 w2
    conv_lhs => rw [parseLoop]
    conv_rhs => rw [parseLoop]
    by_cases h : i < lines.length
    · rw [dif_pos h, dif_pos h]
      dsimp only
      by_cases c1 : (pyStrip lines[i] == "" || strStarts (pyStrip lines[i]) "//") = true
      · rw [if_pos c1, if_pos c1]; exact ih _ _ _ _ _
      · rw [if_neg c1, if_neg c1]
        by_cases c2 : strStarts (pyStrip lines[i]) "#" = true
        · rw [if_pos c2, if_pos c2]
          cases hd : parseDirectiveLine (pyStrip lines[i]) i dirs with
          | error e => rfl
          | ok d2 => exact ih _ _ _ _ _
        · rw [if_neg c2, if_neg c2]
          by_cases c3 : strStarts (pyLStrip lines[i]) "cpp." = true
          · rw [if_pos c3, if_pos c3]; exact ih _ _ _ _ _
          · rw [if_neg c3, if_neg c3]
            by_cases c4 : strStarts (pyLStrip lines[i]) "py." = true
            · rw [if_pos c4, if_pos c4]
              by_cases c5 : isMultilineStart (pyStrip (strDrop (pyLStrip lines[i]) 3)) = true
              · rw [if_pos c5, if_pos c5]; exact ih _ _ _ _ _
              · rw [if_neg c5, if_neg c5]; exact ih _ _ _ _ _
            · rw [if_neg c4, if_neg c4]
              by_cases c6 : strStarts (pyLStrip lines[i]) "js." = true
              · rw [if_pos c6, if_pos c6]; exact ih _ _ _ _ _
              · rw [if_neg c6, if_neg c6]
                by_cases c7 : strStarts (pyLStrip lines[i]) "java." = true
                · rw [if_pos c7, if_pos c7]; exact ih _ _ _ _ _
                · rw [if_neg c7, if_neg c7]
                  by_cases c8 : strStarts (pyLStrip lines[i]) "php." = true
                  · rw [if_pos c8, if_pos c8]; exact ih _ _ _ _ _
                  · rw [if_neg c8, if_neg c8]
                    by_cases c9 : strStarts (pyLStrip lines[i]) "rust." = true
                    · rw [if_pos c9, if_pos c9]; exact ih _ _ _ _ _
                    · rw [if_neg c9, if_neg c9]
                      by_cases c10 : (!(pyStrip lines[i] == "") &&
                          !strStarts (pyStrip lines[i]) "/*") = true
                      · rw [if_pos c10, if_pos c10]; exact ih _ _ _ _ _
                      · rw [if_neg c10, if_neg c10]; exact ih _ _ _ _ _
    · rw [dif_neg h, dif_neg h]; rfl

/-- C2 (amended): the LFSecurity screener is advisory — the parsed model
(directives and code blocks) is the same whatever findings the screener
reports, including none at all; but the `sanitize_input` regex denylist is
fatal: whenever any of its patterns matches the (lowercased) source, the
parse aborts with an error, before any fragment is produced. -/
theorem c2_screener_advisory_sanitize_fatal (src0 : String) (s1 s2 : Option Screener) :
    ((parse_lf_source s1 src0).map Prod.fst = (parse_lf_source s2 src0).map Prod.fst) ∧
    (∀ idx, idx < dangerous_patterns.length →
      (dangerous_patterns.getD idx ("", fun _ => false)).2 (src0.data.map lowerChar) = true →
      ∃ e, parse_lf_source s1 src0 = .error e) := by
  constructor
  · unfold parse_lf_source
    cases hs : sanitize_input src0 with
    | error e => rfl
    | ok t => exact parseLoop_fst_indep _ s1 s2 _ 0 [] [] [] []
  · intro idx hlt hmatch
    simp only [parse_lf_source, sanitize_input]
    cases hf : dangerous_patterns.find? (fun p => p.2 (src0.data.map lowerChar)) with
    | some p => exact ⟨_, rfl⟩
    | none =>
      exfalso
      have hmem : dangerous_patterns.getD idx ("", fun _ => false) ∈ dangerous_patterns := by
        rw [List.getD_eq_getElem _ _ hlt]
        exact List.getElem_mem hlt
      have hnone := List.find?_eq_none.mp hf _ hmem
      simp only [hmatch] at hnone
      exact hnone trivial
  
/-- C2 (counterexample): for the one-fragment source `py.eval(1)` —
whatever the screener reports — parsing does not proceed at all: the
`sanitize_input` denylist aborts compilation with a fatal error, so the
claim that findings never abort compilation fails. -/
theorem c2_counterexample :
    parse_lf_source (some fun _ _ => [⟨"eval_usage", "high"⟩]) "py.eval(1)" =
      Except.error "Potentially dangerous code pattern detected: \\beval\\b" := by decide

/-- C2 (witness): the fatal-denylist half of the amended claim at a
concrete input. -/
theorem c2_witness :
    ∃ e, parse_lf_source none "py.eval(1)" = Except.error e :=
  (c2_screener_advisory_sanitize_fatal "py.eval(1)" none none).2 2 (by decide) (by decide)

theorem mergeGo_spec : ∀ fuel (bs : List Block), bs.length ≤ fuel →
    ((mergeGo fuel bs).filter (fun b => !(b.type == "py")) =
      bs.filter (fun b => !(b.type == "py"))) ∧
    (∀ b ∈ mergeGo fuel bs, b.type = "py" →
      ∃ x g, (x :: g).Sublist bs ∧ x.type = "py" ∧ (∀ y ∈ g, y.type = "py") ∧
        b.content = g.foldl (fun a y => a ++ "\n" ++ _clean_python_code y.content)
          (_clean_python_code x.content)) := by
  intro fuel
  induction fuel with
  | zero =>
    intro bs hlen
    have hnil : bs = [] := List.length_eq_zero.mp (Nat.le_zero.mp hlen)
    subst hnil
    exact ⟨rfl, by intro b hb htype; exact absurd hb (by simp [mergeGo])⟩
  | succ n ih =>
    intro bs hlen
    match bs with
    | [] => exact ⟨rfl, by intro b hb htype; exact absurd hb (by simp [mergeGo])⟩
    | b :: rest =>
      simp only [List.length_cons, Nat.succ_le_succ_iff] at hlen
      rw [mergeGo]
      by_cases hb : (b.type == "py") = true
      · have hbf : (!(b.type == "py")) = false := by simp [hb]
        rw [if_pos hb]
        dsimp only
        by_cases hstart : (isBlockStartRun (pyStrip (_clean_python_code b.content)) ||
            _is_start_of_multiline_structure (pyStrip (_clean_python_code b.content))) = true
        · rw [if_pos hstart]
          set r := mergeCollect (indentOf b.content) (_clean_python_code b.content)
            (_is_start_of_multiline_structure (pyStrip (_clean_python_code b.content))) rest
            with hrdef
          obtain ⟨g, hg1, hg2, hg3⟩ := mergeCollect_suffix (indentOf b.content)
            (_clean_python_code b.content)
            (_is_start_of_multiline_structure (pyStrip (_clean_python_code b.content))) rest
          rw [← hrdef] at hg1 hg3
          have hlen2 : r.2.length ≤ n := by
            have hh := congrArg List.length hg1
            simp only [List.length_append] at hh
            omega
          obtain ⟨ihf, ihm⟩ := ih r.2 hlen2
          have hsub2 : r.2.Sublist rest := by
            conv_rhs => rw [hg1]
            exact List.sublist_append_right g _
          constructor
          · rw [List.filter_cons, List.filter_cons]
            have ht : (!(("py" : String) == "py")) = false := by decide
            simp only [ht, hbf, Bool.false_eq_true, if_false]
            rw [ihf]
            conv_rhs => rw [hg1]
            rw [List.filter_append]
            have hgnil : g.filter (fun b => !(b.type == "py")) = [] := by
              rw [List.filter_eq_nil_iff]
              intro a ha
              simp [hg2 a ha]
            rw [hgnil, List.nil_append]
          · intro b2 hb2 htype
            rcases List.mem_cons.mp hb2 with heq | hmem
            · refine ⟨b, g, ?_, by simpa using hb, hg2, ?_⟩
              · conv_rhs => rw [hg1]
                exact (List.sublist_append_left g _).cons₂ b
              · rw [heq]
                exact hg3
            · obtain ⟨x, g2, hs, hx, hgall, hcont⟩ := ihm b2 hmem htype
              exact ⟨x, g2, (hs.trans hsub2).cons b, hx, hgall, hcont⟩
        · rw [if_neg hstart]
          obtain ⟨ihf, ihm⟩ := ih rest hlen
          constructor
          · rw [List.filter_cons, List.filter_cons]
            have ht : (!(("py" : String) == "py")) = false := by decide
            simp only [ht, hbf, Bool.false_eq_true, if_false]
            exact ihf
          · intro b2 hb2 htype
            rcases List.mem_cons.mp hb2 with heq | hmem
            · refine ⟨b, [], (List.nil_sublist rest).cons₂ b, by simpa using hb,
                by intro y hy; exact absurd hy (List.not_mem_nil y), ?_⟩
              rw [heq]
              rfl
            · obtain ⟨x, g2, hs, hx, hgall, hcont⟩ := ihm b2 hmem htype
              exact ⟨x, g2, hs.cons b, hx, hgall, hcont⟩
      · have hbf : (b.type == "py") = false := by simpa using hb
        have hbt : (!(b.type == "py")) = true := by simp [hbf]
        rw [if_neg hb]
        obtain ⟨ihf, ihm⟩ := ih rest hlen
        constructor
        · rw [List.filter_cons, List.filter_cons]
          simp only [hbt, if_true]
          rw [ihf]
        · intro b2 hb2 htype
          rcases List.mem_cons.mp hb2 with heq | hmem
          · exfalso
            rw [heq] at htype
            rw [htype] at hbf
            exact absurd hbf (by decide)
          · obtain ⟨x, g2, hs, hx, hgall, hcont⟩ := ihm b2 hmem htype
            exact ⟨x, g2, hs.cons b, hx, hgall, hcont⟩

/-- C4 (amended): in the runtime merger `_merge_python_blocks`, a
non-primary-language block unconditionally ends lookahead: non-`py` blocks
pass through unchanged, and every merged `py` fragment's content is built
exclusively from the (cleaned) contents of `py` blocks of the input.  (In
the compile-time parser, by contrast, a deeper-indented guest-language
line is absorbed into the `py` fragment — see the counterexample.) -/
theorem c4_runtime_merge_guest_isolation (bs : List Block) :
    ((_merge_python_blocks bs).filter (fun b => !(b.type == "py")) =
      bs.filter (fun b => !(b.type == "py"))) ∧
    (∀ b ∈ _merge_python_blocks bs, b.type = "py" →
      ∃ x g, (x :: g).Sublist bs ∧ x.type = "py" ∧ (∀ y ∈ g, y.type = "py") ∧
        b.content = g.foldl (fun a y => a ++ "\n" ++ _clean_python_code y.content)
          (_clean_python_code x.content)) :=
  mergeGo_spec bs.length bs (Nat.le_refl _)

/-- C4 (counterexample): in the compile-time parser, the indented
non-primary line `cpp.printf("hi")` is absorbed verbatim into the `py`
fragment opened by `py.if x:` — a non-primary-language line does not
unconditionally end lookahead there. -/
theorem c4_counterexample :
    parse_lf_source none "py.if x:\n    cpp.printf(\"hi\")" =
      Except.ok (⟨[], [⟨1, "py", "if x:\n    cpp.printf(\"hi\")"⟩]⟩, []) ∧
    containsSub "if x:\n    cpp.printf(\"hi\")" "cpp." = true := by decide

/-- C4 (witness): the amended-claim decomposition at a concrete block
list. -/
theorem c4_witness :
    ∃ x g, (x :: g).Sublist [Block.mk 1 "py" "a = 1", Block.mk 2 "cpp" "y;"] ∧
      x.type = "py" ∧ (∀ y ∈ g, y.type = "py") ∧
      (Block.mk 1 "py" "a = 1").content =
        g.foldl (fun a y => a ++ "\n" ++ _clean_python_code y.content)
          (_clean_python_code x.content) :=
  (c4_runtime_merge_guest_isolation [Block.mk 1 "py" "a = 1", Block.mk 2 "cpp" "y;"]).2
    (Block.mk 1 "py" "a = 1") (by decide) (by decide)

/-- C5 (amended): in `_execute_cpp_full`, the created temp paths are
appended to the cleanup tracker only on the paths where both subprocess
calls return (compile failure included); on a raised compile/run timeout
or missing-compiler error the freshly created file(s) are never
registered, while end-of-run cleanup removes exactly the registered
files. -/
theorem c5_temp_registration (code : String) (line : Nat) (st : RState) (w : World) :
    ((w.proc ["g++", w.tempName st.tempCounter ++ ".cpp", "-o",
          w.tempName st.tempCounter ++ ".out", "-std=c++11", "-O2"] = .timeout ∨
      w.proc ["g++", w.tempName st.tempCounter ++ ".cpp", "-o",
          w.tempName st.tempCounter ++ ".out", "-std=c++11", "-O2"] = .notFound) →
      (_execute_cpp_full code line st w).1.temp_files = st.temp_files ∧
      w.tempName st.tempCounter ++ ".cpp" ∈ (_execute_cpp_full code line st w).1.disk) ∧
    (∀ rc o e, w.proc ["g++", w.tempName st.tempCounter ++ ".cpp", "-o",
          w.tempName st.tempCounter ++ ".out", "-std=c++11", "-O2"] = .done rc o e →
      ¬(rc = 0) →
      (_execute_cpp_full code line st w).1.temp_files = st.temp_files ++
        [w.tempName st.tempCounter ++ ".cpp", w.tempName st.tempCounter ++ ".out"]) ∧
    (∀ o e, w.proc ["g++", w.tempName st.tempCounter ++ ".cpp", "-o",
          w.tempName st.tempCounter ++ ".out", "-std=c++11", "-O2"] = .done 0 o e →
      w.proc [w.tempName st.tempCounter ++ ".out"] = .timeout →
      (_execute_cpp_full code line st w).1.temp_files = st.temp_files ∧
      w.tempName st.tempCounter ++ ".cpp" ∈ (_execute_cpp_full code line st w).1.disk ∧
      w.tempName st.tempCounter ++ ".out" ∈ (_execute_cpp_full code line st w).1.disk) ∧
    (∀ o e rc2 o2 e2, w.proc ["g++", w.tempName st.tempCounter ++ ".cpp", "-o",
          w.tempName st.tempCounter ++ ".out", "-std=c++11", "-O2"] = .done 0 o e →
      w.proc [w.tempName st.tempCounter ++ ".out"] = .done rc2 o2 e2 →
      (_execute_cpp_full code line st w).1.temp_files = st.temp_files ++
        [w.tempName st.tempCounter ++ ".cpp", w.tempName st.tempCounter ++ ".out"]) ∧
    (∀ s : RState, (_cleanup_temp_files s).temp_files = [] ∧
      (_cleanup_temp_files s).disk = s.disk.filter (fun f => !s.temp_files.contains f)) := by
  refine ⟨?_, ?_, ?_, ?_, fun s => ⟨rfl, rfl⟩⟩
  · intro h
    simp only [_execute_cpp_full]
    rcases h with h | h <;> rw [h] <;> simp
  · intro rc o e hc hrc
    simp only [_execute_cpp_full]
    rw [hc]
    have : (rc == 0) = false := by simpa using hrc
    simp [this]
  · intro o e hc hr
    simp only [_execute_cpp_full]
    rw [hc]
    have : ((0 : Int) == 0) = true := by decide
    simp only [this, if_true]
    rw [hr]
    simp
  · intro o e rc2 o2 e2 hc hr
    simp only [_execute_cpp_full]
    rw [hc]
    have : ((0 : Int) == 0) = true := by decide
    simp only [this, if_true]
    rw [hr]

/-- A world whose every subprocess invocation times out. -/
def c5_world : World :=
  { proc := fun _ => .timeout, pyEval := pyEvalInert, pyExec := fun _ _ => .ok [],
    importOk := fun _ => false, tempName := fun n => "t" ++ toString n,
    tempDir := "d", elapsed := 0 }

/-- C5 (counterexample): under a compile timeout, the C++ executor's
freshly created temp file `t0.cpp` is never registered with the cleanup
tracker and still exists after end-of-run cleanup — it is neither
registered immediately on creation nor released on this exit path. -/
theorem c5_counterexample :
    (_execute_cpp_full "x;" 7 initState c5_world).1.temp_files = [] ∧
    "t0.cpp" ∈ (_execute_cpp_full "x;" 7 initState c5_world).1.disk ∧
    "t0.cpp" ∈ (_cleanup_temp_files (_execute_cpp_full "x;" 7 initState c5_world).1).disk := by
  decide

/-- C5 (witness): the timeout clause of the amended claim at a concrete
world. -/
theorem c5_witness :
    (_execute_cpp_full "x;" 7 initState c5_world).1.temp_files = initState.temp_files ∧
    c5_world.tempName initState.tempCounter ++ ".cpp" ∈
      (_execute_cpp_full "x;" 7 initState c5_world).1.disk :=
  (c5_temp_registration "x;" 7 initState c5_world).1 (Or.inl rfl)

/-- C10 (amended): the js, java, php and rust executors, and the full
(compile-and-run) C++ path, leave the shared variables map and functions
map unchanged on every path (compile failure, timeouts, missing
toolchains): on those paths guest state flows host→guest only.  The C++
printf fast path is the exception: it evaluates arguments with `eval`
over a snapshot of the shared variables, which contains the runtime
object itself under the name `cpp`, so an evaluated argument can reach
live runtime methods and mutate the shared state (see the
counterexample). -/
theorem c10_guest_executors_preserve_state (code : String) (line : Nat)
    (st : RState) (w : World) :
    ((_execute_cpp_full code line st w).1.vars = st.vars ∧
     (_execute_cpp_full code line st w).1.functions = st.functions) ∧
    ((execute_javascript code line st w).1.vars = st.vars ∧
     (execute_javascript code line st w).1.functions = st.functions) ∧
    ((execute_java code line st w).1.vars = st.vars ∧
     (execute_java code line st w).1.functions = st.functions) ∧
    ((execute_php code line st w).1.vars = st.vars ∧
     (execute_php code line st w).1.functions = st.functions) ∧
    ((execute_rust code line st w).1.vars = st.vars ∧
     (execute_rust code line st w).1.functions = st.functions) :=
  ⟨⟨(cppFull_frame code line st w).1, (cppFull_frame code line st w).2.1⟩,
   ⟨(execute_js_frame code line st w).1, (execute_js_frame code line st w).2.1⟩,
   ⟨(execute_java_frame code line st w).1, (execute_java_frame code line st w).2.1⟩,
   ⟨(execute_php_frame code line st w).1, (execute_php_frame code line st w).2.1⟩,
   ⟨(execute_rust_frame code line st w).1, (execute_rust_frame code line st w).2.1⟩⟩

/-- A world modelling the hand-traced `eval` of `cpp.variables.clear()`:
the expression reaches the runtime object through the snapshot's
`cpp ↦ self` binding, calls `dict.clear()` on `self.variables` and
returns `None`; every other expression raises without side effects. -/
def c10_world : World :=
  { proc := fun _ => .timeout,
    pyEval := fun expr _ st =>
      if expr == "cpp.variables.clear()" then
        { result := some (.vOpaque "None"), vars := [], functions := st.functions,
          temp_files := st.temp_files, tempCounter := st.tempCounter,
          disk := st.disk, events := [] }
      else pyEvalInert expr [] st,
    pyExec := fun _ _ => .ok [], importOk := fun _ => false,
    tempName := fun n => "t" ++ toString n, tempDir := "d", elapsed := 0 }

/-- C10 (counterexample): the fragment
`cpp.printf("%s", cpp.variables.clear())` is handled by the printf fast
path of the C++ executor, yet its argument's `eval` — reaching the
runtime through the `cpp` binding installed by `_initialize_globals` —
empties the shared variables map: the variables map is NOT identical
before and after the guest executor call. -/
theorem c10_counterexample :
    (execute_cpp "cpp.printf(\"%s\", cpp.variables.clear())" 1
        (_initialize_globals initState) c10_world).2.1.vars = [] ∧
    (_initialize_globals initState).vars.length = 26 := by
  constructor
  · rfl
  · decide

/-- C3 (amended): the inline printf fast path's argument evaluation
tries, in order: exact variable lookup (callables skipped),
quoted-literal stripping, the `len(name)` pattern, numeric literal
parsing, and finally the restricted `eval`, whose evaluation environment
is exactly the snapshot of shared variables overlaid with the fixed
`safe_builtins` allow-list.  The non-`eval` stages touch no state and
emit no events; the `eval` stage hands the oracle that snapshot together
with the current runtime state — reachable through the snapshot's
`cpp ↦ runtime-object` binding installed by `_initialize_globals` — so
the evaluation can mutate shared state, create temp files and spawn
processes, and the fast path passes those effects through, adding only
the final print of its own (see the counterexample for a spawning
argument). -/
theorem c3_fastpath_evaluation (expr0 : String) (st : RState) (w : World)
    (code : String) (line : Nat) :
    (∀ v, directLookup st.vars (pyStrip expr0) = some v →
      _evaluate_expression_simple expr0 st w = (.ok v, st, [])) ∧
    (∀ v, directLookup st.vars (pyStrip expr0) = some v ↔
      (envLookup st.vars (pyStrip expr0) = some v ∧ isCallable v = false)) ∧
    (directLookup st.vars (pyStrip expr0) = none →
      isQuotedLiteral (pyStrip expr0) = true →
      _evaluate_expression_simple expr0 st w =
        (.ok (.vStr (strSlice (pyStrip expr0) 1 ((pyStrip expr0).data.length - 1))), st, [])) ∧
    (directLookup st.vars (pyStrip expr0) = none →
      isQuotedLiteral (pyStrip expr0) = false →
      (strStarts (pyStrip expr0) "len(" && strEnds (pyStrip expr0) ")") = true →
      ∀ v, envLookup st.vars
          (pyStrip (strSlice (pyStrip expr0) 4 ((pyStrip expr0).data.length - 1))) = some v →
        _evaluate_expression_simple expr0 st w =
          (match pyLen v with
           | some n => ((.ok (.vInt (n : Int))), st, [])
           | none => (.error "TypeError: object has no len()", st, []))) ∧
    (directLookup st.vars (pyStrip expr0) = none →
      isQuotedLiteral (pyStrip expr0) = false →
      ((strStarts (pyStrip expr0) "len(" && strEnds (pyStrip expr0) ")") = false ∨
        envLookup st.vars
          (pyStrip (strSlice (pyStrip expr0) 4 ((pyStrip expr0).data.length - 1))) = none) →
      _evaluate_expression_simple expr0 st w = evalTail (pyStrip expr0) st w) ∧
    ((pyStrip expr0).data.contains '.' = true → pyFloatAccepts (pyStrip expr0) = true →
      evalTail (pyStrip expr0) st w = (.ok (.vFloat (pyStrip expr0)), st, [])) ∧
    (∀ n, (pyStrip expr0).data.contains '.' = false → pyIntParse (pyStrip expr0) = some n →
      evalTail (pyStrip expr0) st w = (.ok (.vInt n), st, [])) ∧
    (((pyStrip expr0).data.contains '.' = true → pyFloatAccepts (pyStrip expr0) = false) →
      ((pyStrip expr0).data.contains '.' = false → pyIntParse (pyStrip expr0) = none) →
      evalTail (pyStrip expr0) st w =
        (match (w.pyEval (pyStrip expr0) (buildSafeEnv st.vars) st).result with
         | some v => (.ok v,
             evalApply st (w.pyEval (pyStrip expr0) (buildSafeEnv st.vars) st),
             (w.pyEval (pyStrip expr0) (buildSafeEnv st.vars) st).events)
         | none => (.ok (.vStr (pyStrip expr0)),
             evalApply st (w.pyEval (pyStrip expr0) (buildSafeEnv st.vars) st),
             (w.pyEval (pyStrip expr0) (buildSafeEnv st.vars) st).events))) ∧
    (∀ k, envLookup (buildSafeEnv st.vars) k =
      (match envLookup safe_builtins k with
       | some v => some v
       | none => envLookup st.vars k)) ∧
    ((strStarts (pyStrip (if strStarts code "cpp." then strDrop code 4 else code)) "printf(" &&
        !containsSub (if strStarts code "cpp." then strDrop code 4 else code) "<<" &&
        !containsSub (if strStarts code "cpp." then strDrop code 4 else code) "cout" &&
        decide (countChar (if strStarts code "cpp." then strDrop code 4 else code) ';' ≤ 1)) = true →
      ∀ a b2, findCharFrom (if strStarts code "cpp." then strDrop code 4 else code).data '(' 0 = some a →
        rfindChar (if strStarts code "cpp." then strDrop code 4 else code).data ')' = some b2 →
        execute_cpp code line st w =
          (match _parse_printf_ultimate
              (strSlice (if strStarts code "cpp." then strDrop code 4 else code) (a + 1) b2)
              st w with
           | (.ok r, st1, ev1) => (none, st1, ev1 ++ [.out r])
           | (.error e, st1, ev1) => (some e, st1, ev1))) := by
  refine ⟨?_, ?_, ?_, ?_, ?_, ?_, ?_, ?_, ?_, ?_⟩
  · intro v hv
    simp only [_evaluate_expression_simple, hv]
  · intro v
    constructor
    · intro hv
      unfold directLookup at hv
      cases hl : envLookup st.vars (pyStrip expr0) with
      | none => rw [hl] at hv; exact absurd hv (by simp)
      | some v2 =>
        rw [hl] at hv
        dsimp only at hv
        by_cases hc : isCallable v2 = true
        · rw [if_pos hc] at hv; exact absurd hv (by simp)
        · rw [if_neg hc] at hv
          have hveq : v2 = v := by simpa using hv
          subst hveq
          exact ⟨rfl, by simpa using hc⟩
    · intro ⟨hl, hc⟩
      unfold directLookup
      rw [hl]
      dsimp only
      rw [if_neg (by simp [hc])]
  · intro hdir hq
    simp only [_evaluate_expression_simple, hdir, hq, if_true]
  · intro hdir hq hlen v hv
    simp only [_evaluate_expression_simple, hdir, hq, Bool.false_eq_true, if_false,
      hlen, if_true, hv]
  · intro hdir hq htail
    rcases htail with hshape | hinner
    · simp only [_evaluate_expression_simple, hdir, hq, Bool.false_eq_true, if_false,
        hshape]
    · by_cases hshape : (strStarts (pyStrip expr0) "len(" && strEnds (pyStrip expr0) ")") = true
      · simp only [_evaluate_expression_simple, hdir, hq, Bool.false_eq_true, if_false,
          hshape, if_true, hinner]
      · have hs2 : (strStarts (pyStrip expr0) "len(" && strEnds (pyStrip expr0) ")") = false := by
          simpa using hshape
        simp only [_evaluate_expression_simple, hdir, hq, Bool.false_eq_true, if_false, hs2]
  · intro hdot hfa
    simp only [evalTail, hdot, hfa, if_true]
  · intro n hdot hint
    simp only [evalTail, hdot, Bool.false_eq_true, if_false, hint]
    rfl
  · intro hfa hint
    simp only [evalTail]
    by_cases hdot : (pyStrip expr0).data.contains '.' = true
    · simp only [hdot, if_true, hfa hdot, Bool.false_eq_true, if_false]
    · have hdot2 : (pyStrip expr0).data.contains '.' = false := by simpa using hdot
      simp only [hdot2, Bool.false_eq_true, if_false, hint hdot2]
      rfl
  · intro k
    exact envLookup_updateAll st.vars safe_builtins (by decide) k
  · intro hfast a b2 hfind hrfind
    simp only [execute_cpp, hfast, if_true, hfind, hrfind]

/-- The shared-variable snapshot used by the C3 witness. -/
def c3_vars : Env := [("x", PyVal.vInt 5)]

/-- A world for the C3 witness (its oracles are never consulted on the
exercised stages). -/
def c3_world : World :=
  { proc := fun _ => .timeout, pyEval := pyEvalInert, pyExec := fun _ _ => .ok [],
    importOk := fun _ => false, tempName := fun n => "c" ++ toString n,
    tempDir := "d", elapsed := 0 }

/-- C3 (witness): concrete fast-path instances — variable lookup wins
without touching the state, and a recognized simple printf reduces to the
printf evaluation plus its own final print. -/
theorem c3_witness :
    _evaluate_expression_simple "x" { initState with vars := c3_vars } c3_world =
      (.ok (PyVal.vInt 5), { initState with vars := c3_vars }, []) ∧
    execute_cpp "printf(\"v=%d\", x)" 2 { initState with vars := c3_vars } c3_world =
      (match _parse_printf_ultimate "\"v=%d\", x"
          { initState with vars := c3_vars } c3_world with
       | (.ok r, st1, ev1) => (none, st1, ev1 ++ [.out r])
       | (.error e, st1, ev1) => (some e, st1, ev1)) :=
  ⟨(c3_fastpath_evaluation "x" { initState with vars := c3_vars } c3_world "x" 0).1
      (PyVal.vInt 5) rfl,
   (c3_fastpath_evaluation "printf(\"v=%d\", x)" { initState with vars := c3_vars }
      c3_world "printf(\"v=%d\", x)" 2).2.2.2.2.2.2.2.2.2 (by decide) 6 16
      (by decide) (by decide)⟩

/-- A deterministic process environment for the C3 counterexample. -/
def c3_procWorld : World :=
  { proc := fun _ => .done 0 "1" "", pyEval := pyEvalInert,
    pyExec := fun _ _ => .ok [], importOk := fun _ => false,
    tempName := fun n => "t" ++ toString n, tempDir := "d", elapsed := 0 }

/-- A world modelling the hand-traced `eval` of
`cpp.execute_php("echo 1", 1)`: through the snapshot's `cpp ↦ self`
binding the expression invokes the runtime's PHP executor — performing
exactly what the model's `execute_php` performs (a temp-file creation and
a `php` subprocess invocation) and returning `None`; every other
expression raises without side effects. -/
def c3_badworld : World :=
  { c3_procWorld with
    pyEval := fun expr _ st =>
      if expr == "cpp.execute_php(\"echo 1\", 1)" then
        let r := execute_php "echo 1" 1 st c3_procWorld
        { result := some (.vOpaque "None"), vars := r.1.vars,
          functions := r.1.functions, temp_files := r.1.temp_files,
          tempCounter := r.1.tempCounter, disk := r.1.disk, events := r.2 }
      else pyEvalInert expr [] st }

/-- C3 (counterexample): on the fast path, the fragment
`printf("%s", cpp.execute_php("echo 1", 1))` spawns the PHP interpreter
and creates a temp file — the fast path is NOT free of ambient process
and filesystem access, because the shared-variable snapshot handed to
`eval` includes the runtime object under the name `cpp`. -/
theorem c3_counterexample :
    Ev.spawn ["php", "t0.php"] ∈
      (execute_cpp "printf(\"%s\", cpp.execute_php(\"echo 1\", 1))" 1
        (_initialize_globals initState) c3_badworld).2.2 ∧
    "t0.php" ∈ (execute_cpp "printf(\"%s\", cpp.execute_php(\"echo 1\", 1))" 1
        (_initialize_globals initState) c3_badworld).2.1.temp_files := by
  constructor
  · decide
  · decide

/-- The concatenation of the per-line lookahead contributions over the
window `[j, stop)`. -/
def absorbJoin (lines : List String) (base j stop : Nat) : String :=
  ((List.range (stop - j)).map fun t => absorbLine (lines.getD (j + t) "") base).foldl
    (fun a s => a ++ s) ""

theorem strFoldl_append (xs : List String) (a : String) :
    xs.foldl (fun x y => x ++ y) a = a ++ xs.foldl (fun x y => x ++ y) "" := by
  induction xs generalizing a with
  | nil => simp only [List.foldl_nil]; rw [strApp_nil]
  | cons x rest ih =>
    simp only [List.foldl_cons]
    rw [ih (a ++ x), ih ("" ++ x)]
    have hx : ("" ++ x) = x := rfl
    rw [hx, strApp_assoc]

theorem absorbJoin_self (lines : List String) (base j : Nat) :
    absorbJoin lines base j j = "" := by
  simp [absorbJoin]

theorem absorbJoin_cons (lines : List String) (base j stop : Nat) (h : j < stop) :
    absorbJoin lines base j stop =
      absorbLine (lines.getD j "") base ++ absorbJoin lines base (j + 1) stop := by
  have hd : stop - j = (stop - (j + 1)) + 1 := by omega
  rw [absorbJoin, hd, List.range_succ_eq_map]
  simp only [List.map_cons, Nat.add_zero, List.map_map, List.foldl_cons]
  rw [strFoldl_append]
  have hmap : (List.range (stop - (j + 1))).map
      ((fun t => absorbLine (lines.getD (j + t) "") base) ∘ Nat.succ) =
      (List.range (stop - (j + 1))).map fun t => absorbLine (lines.getD (j + 1 + t) "") base := by
    apply List.map_congr_left
    intro t ht
    simp only [Function.comp]
    have : j + (t + 1) = j + 1 + t := by omega
    rw [Nat.succ_eq_add_one, this]
  rw [hmap]
  rfl

theorem compileLook_spec (lines : List String) (base : Nat) :
    ∀ fuel acc j, lines.length ≤ fuel + j → j ≤ lines.length →
      j ≤ (compileLook lines base fuel acc j).2 ∧
      (compileLook lines base fuel acc j).2 ≤ lines.length ∧
      (∀ k, j ≤ k → k < (compileLook lines base fuel acc j).2 →
        endsUnit lines k base = false) ∧
      ((compileLook lines base fuel acc j).2 < lines.length →
        endsUnit lines (compileLook lines base fuel acc j).2 base = true) ∧
      (compileLook lines base fuel acc j).1 =
        acc ++ absorbJoin lines base j (compileLook lines base fuel acc j).2 := by
  intro fuel
  induction fuel with
  | zero =>
    intro acc j h1 h2
    refine ⟨Nat.le.refl, h2, ?_, ?_, ?_⟩
    · intro k hk1 hk2
      exact absurd hk2 (by simp [compileLook]; omega)
    · intro hlt
      rw [show (compileLook lines base 0 acc j).2 = j from rfl] at hlt
      omega
    · rw [show compileLook lines base 0 acc j = (acc, j) from rfl]
      rw [absorbJoin_self, strApp_nil]
  | succ n ih =>
    intro acc j h1 h2
    rw [compileLook]
    by_cases h : j < lines.length
    · rw [dif_pos h]
      dsimp only
      have hget : lines.getD j "" = lines[j] := List.getD_eq_getElem _ _ h
      by_cases b1 : (pyStrip lines[j] == "" || strStarts (pyStrip lines[j]) "//") = true
      · rw [if_pos b1]
        obtain ⟨c1, c2, c3, c4, c5⟩ := ih acc (j + 1) (by omega) (by omega)
        have hj0 : endsUnit lines j base = false := by
          simp only [endsUnit, hget]
          rcases (show (pyStrip lines[j] == "") = true ∨
              strStarts (pyStrip lines[j]) "//" = true by simpa using b1) with hb | hb
          · simp [hb]
          · simp [hb]
        refine ⟨by omega, c2, ?_, c4, ?_⟩
        · intro k hk1 hk2
          rcases Nat.eq_or_lt_of_le hk1 with heq | hlt
          · rw [← heq]; exact hj0
          · exact c3 k hlt hk2
        · rw [c5]
          rw [absorbJoin_cons lines base j _ (by omega)]
          have habs : absorbLine (lines.getD j "") base = "" := by
            rw [hget]
            simp only [absorbLine]
            rw [if_pos b1]
          rw [habs]
          rfl
      · rw [if_neg b1]
        have hb1 : ¬((pyStrip lines[j] == "") = true ∨
            strStarts (pyStrip lines[j]) "//" = true) := by simpa using b1
        push_neg at hb1
        have hb1a : (pyStrip lines[j] == "") = false := Bool.eq_false_iff.mpr hb1.1
        have hb1b : strStarts (pyStrip lines[j]) "//" = false := Bool.eq_false_iff.mpr hb1.2
        have hbne : (!(pyStrip lines[j] == "")) = true := by simp [hb1a]
        by_cases b2 : (decide (indentOf lines[j] ≤ base) && !(pyStrip lines[j] == "")) = true
        · rw [if_pos b2]
          refine ⟨Nat.le.refl, Nat.le_of_lt h, ?_, ?_, ?_⟩
          · intro k hk1 hk2
            exact absurd hk2 (by simp; omega)
          · intro hlt
            simp only [endsUnit, hget]
            rw [Bool.and_eq_true] at b2
            simp [hb1a, hb1b, b2.1]
          · rw [show ((acc, j) : String × Nat).2 = j from rfl,
              show ((acc, j) : String × Nat).1 = acc from rfl]
            rw [absorbJoin_self, strApp_nil]
        · rw [if_neg b2]
          have hind : decide (indentOf lines[j] ≤ base) = false := by
            rcases Bool.eq_false_or_eq_true (decide (indentOf lines[j] ≤ base)) with ht | hf
            · exact absurd (by simp [ht, hbne]) b2
            · exact hf
          have hj0 : endsUnit lines j base = false := by
            simp only [endsUnit, hget]
            simp [hind]
          by_cases b3 : strStarts (pyLStrip lines[j]) "py." = true
          · rw [if_pos b3]
            obtain ⟨c1, c2, c3, c4, c5⟩ :=
              ih (acc ++ "\n" ++ strDrop (pyLStrip lines[j]) 3) (j + 1) (by omega) (by omega)
            refine ⟨by omega, c2, ?_, c4, ?_⟩
            · intro k hk1 hk2
              rcases Nat.eq_or_lt_of_le hk1 with heq | hlt
              · rw [← heq]; exact hj0
              · exact c3 k hlt hk2
            · rw [c5]
              rw [absorbJoin_cons lines base j _ (by omega)]
              have habs : absorbLine (lines.getD j "") base =
                  "\n" ++ strDrop (pyLStrip lines[j]) 3 := by
                rw [hget]
                simp only [absorbLine]
                rw [if_neg b1, if_pos b3]
              rw [habs]
              simp only [strApp_assoc]
          · rw [if_neg b3]
            obtain ⟨c1, c2, c3, c4, c5⟩ :=
              ih (acc ++ "\n" ++ strDrop lines[j] base) (j + 1) (by omega) (by omega)
            refine ⟨by omega, c2, ?_, c4, ?_⟩
            · intro k hk1 hk2
              rcases Nat.eq_or_lt_of_le hk1 with heq | hlt
              · rw [← heq]; exact hj0
              · exact c3 k hlt hk2
            · rw [c5]
              rw [absorbJoin_cons lines base j _ (by omega)]
              have habs : absorbLine (lines.getD j "") base =
                  "\n" ++ strDrop lines[j] base := by
                rw [hget]
                simp only [absorbLine]
                rw [if_neg b1, if_neg b3]
              rw [habs]
              simp only [strApp_assoc]
    · rw [dif_neg h]
      have hj : j = lines.length := by omega
      refine ⟨Nat.le.refl, h2, ?_, ?_, ?_⟩
      · intro k hk1 hk2
        exact absurd hk2 (by simp; omega)
      · intro hlt
        exact absurd hlt (by simp; omega)
      · rw [show ((acc, j) : String × Nat).1 = acc from rfl,
          show ((acc, j) : String × Nat).2 = j from rfl]
        rw [absorbJoin_self, strApp_nil]

/-- C7 (corrected): a `py.` block opened by a block-introducing keyword is
absorbed by the lookahead of `parse_lf_source`: the parser emits one
fragment numbered at the opening physical line and resumes at the stop
index; the lookahead window `[i+1, stop)` contains no stopping line, and
the stop (when inside the file) is the first NON-BLANK, NON-`//`-COMMENT
line whose indentation is at most the opener's indentation — of ANY
language, not only the same language; every line of the window is
absorbed regardless of its language marker (not only same-language
lines), with blank and `//` lines contributing nothing. -/
theorem c7_py_block_absorption (scr : Option Screener) (lines : List String)
    (fuel i : Nat) (dirs : Directives) (blocks : List Block) (warns : List String)
    (h : i < lines.length)
    (h1 : (pyStrip lines[i] == "" || strStarts (pyStrip lines[i]) "//") = false)
    (h2 : strStarts (pyStrip lines[i]) "#" = false)
    (h3 : strStarts (pyLStrip lines[i]) "cpp." = false)
    (h4 : strStarts (pyLStrip lines[i]) "py." = true)
    (h5 : isMultilineStart (pyStrip (strDrop (pyLStrip lines[i]) 3)) = true) :
    parseLoop scr lines (fuel + 1) i dirs blocks warns =
      parseLoop scr lines fuel
        (compileLook lines (indentOf lines[i]) lines.length
          (strDrop (pyLStrip lines[i]) 3) (i + 1)).2
        dirs
        (blocks ++ [⟨i + 1, "py",
          (compileLook lines (indentOf lines[i]) lines.length
            (strDrop (pyLStrip lines[i]) 3) (i + 1)).1⟩])
        (warns ++ screenWarns scr
          (compileLook lines (indentOf lines[i]) lines.length
            (strDrop (pyLStrip lines[i]) 3) (i + 1)).1 "py" "Python" (i + 1)) ∧
    i + 1 ≤ (compileLook lines (indentOf lines[i]) lines.length
      (strDrop (pyLStrip lines[i]) 3) (i + 1)).2 ∧
    (compileLook lines (indentOf lines[i]) lines.length
      (strDrop (pyLStrip lines[i]) 3) (i + 1)).2 ≤ lines.length ∧
    (∀ k, i + 1 ≤ k →
      k < (compileLook lines (indentOf lines[i]) lines.length
        (strDrop (pyLStrip lines[i]) 3) (i + 1)).2 →
      endsUnit lines k (indentOf lines[i]) = false) ∧
    ((compileLook lines (indentOf lines[i]) lines.length
        (strDrop (pyLStrip lines[i]) 3) (i + 1)).2 < lines.length →
      endsUnit lines
        (compileLook lines (indentOf lines[i]) lines.length
          (strDrop (pyLStrip lines[i]) 3) (i + 1)).2 (indentOf lines[i]) = true) ∧
    (compileLook lines (indentOf lines[i]) lines.length
      (strDrop (pyLStrip lines[i]) 3) (i + 1)).1 =
      strDrop (pyLStrip lines[i]) 3 ++
        absorbJoin lines (indentOf lines[i]) (i + 1)
          (compileLook lines (indentOf lines[i]) lines.length
            (strDrop (pyLStrip lines[i]) 3) (i + 1)).2 := by
  constructor
  · conv_lhs => simp only [parseLoop]
    rw [dif_pos h, if_neg (by simp [h1]), if_neg (by simp [h2]),
      if_neg (by simp [h3]), if_pos h4, if_pos h5]
  · have hs := compileLook_spec lines (indentOf lines[i]) lines.length
      (strDrop (pyLStrip lines[i]) 3) (i + 1) (by omega) (by omega)
    exact ⟨hs.1, hs.2.1, hs.2.2.1, hs.2.2.2.1, hs.2.2.2.2⟩

/-- C7 (counterexample): the source
`py.if x:` / `    py.a = 1` / `cpp.y;` / `    py.b = 2`
has the same-language indented line `py.b = 2` after the opener with no
same-language indentation-0 line in between, yet it is NOT absorbed into
the opener's fragment: the lookahead stops at the C++ line `cpp.y;`
(indentation 0, different language), so `b = 2` becomes a separate
fragment at line 4. -/
theorem c7_counterexample :
    parse_lf_source none "py.if x:\n    py.a = 1\ncpp.y;\n    py.b = 2" =
      Except.ok (⟨[], [⟨1, "py", "if x:\na = 1"⟩, ⟨3, "cpp", "y;"⟩,
        ⟨4, "py", "b = 2"⟩]⟩, []) ∧
    containsSub "if x:\na = 1" "b = 2" = false := by decide

/-- The concrete line list used by the C7 witness. -/
def c7_lines : List String := ["py.if x:", "    py.a = 1", "cpp.y;"]

/-- C7 (witness): the absorption theorem at a concrete opener — the
parser step emits the fragment at line 1, line 2 does not stop the unit,
line 3 does, and the fragment content is the opener plus the window. -/
theorem c7_witness :
    parseLoop none c7_lines 11 0 [] [] [] =
      parseLoop none c7_lines 10
        (compileLook c7_lines (indentOf "py.if x:") c7_lines.length "if x:" 1).2 []
        ([] ++ [⟨1, "py",
          (compileLook c7_lines (indentOf "py.if x:") c7_lines.length "if x:" 1).1⟩])
        ([] ++ screenWarns none
          (compileLook c7_lines (indentOf "py.if x:") c7_lines.length "if x:" 1).1
          "py" "Python" 1) ∧
    endsUnit c7_lines 1 (indentOf "py.if x:") = false ∧
    endsUnit c7_lines 2 (indentOf "py.if x:") = true ∧
    (compileLook c7_lines (indentOf "py.if x:") c7_lines.length "if x:" 1).1 =
      "if x:" ++ absorbJoin c7_lines (indentOf "py.if x:") 1
        (compileLook c7_lines (indentOf "py.if x:") c7_lines.length "if x:" 1).2 := by
  have h := c7_py_block_absorption none c7_lines 10 0 [] [] [] (by decide) (by decide)
    (by decide) (by decide) (by decide) (by decide)
  exact ⟨h.1, h.2.2.2.1 1 (by decide) (by decide), h.2.2.2.2.1 (by decide), h.2.2.2.2.2⟩

/-- C1: the Execution Dispatcher. For every program, initial state and
world, and every split of the merged fragment list around a fragment `b`
whose dispatch raises an error `e` (as `execute_python` and the C++ fast
path can), the run's trace contains the line-attributed diagnostic for
`b`; the final total-execution counter equals the initial counter plus
the number of merged fragments (every fragment, before and after the
failing one, is dispatched exactly once); and the trace ends with the
end-of-run summary (separator, completion banner, elapsed time, final
variable and function counts) followed by the per-language statistics —
regardless of the failure. -/
theorem c1_dispatcher (prog : Parsed) (st0 : RState) (w : World)
    (pre post : List Block) (b : Block) (e : String)
    (hsplit : _merge_python_blocks prog.code_blocks = pre ++ b :: post)
    (herr : (dispatchTry b (preBlock b
      (runBlocks pre (stateSetup prog st0 w).1 w).1) w).1 = some e) :
    Ev.out ("❌ Execution error at line " ++ toString b.line ++ ": " ++ e)
      ∈ (execute prog st0 w).2 ∧
    (execute prog st0 w).1.total_executions =
      st0.total_executions + (_merge_python_blocks prog.code_blocks).length ∧
    (∃ t, (execute prog st0 w).2 =
      t ++ [Ev.out dashLine, Ev.out "✅ Execution Completed",
        Ev.out ("📊 Total execution time: " ++ toString w.elapsed ++ "s"),
        Ev.out ("📊 Final variables: " ++
          toString (runBlocks (_merge_python_blocks prog.code_blocks)
            (stateSetup prog st0 w).1 w).1.vars.length),
        Ev.out ("📊 Final functions: " ++
          toString (runBlocks (_merge_python_blocks prog.code_blocks)
            (stateSetup prog st0 w).1 w).1.functions.length)] ++
      _print_execution_stats (runBlocks (_merge_python_blocks prog.code_blocks)
        (stateSetup prog st0 w).1 w).1 w) := by
  refine ⟨?_, ?_, ?_⟩
  · have hb := execute_block_err b (runBlocks pre (stateSetup prog st0 w).1 w).1 w e herr
    have hr : (runBlocks (_merge_python_blocks prog.code_blocks)
        (stateSetup prog st0 w).1 w).2 =
        (runBlocks pre (stateSetup prog st0 w).1 w).2 ++
        ((execute_block b (runBlocks pre (stateSetup prog st0 w).1 w).1 w).2 ++
         (runBlocks post (execute_block b (runBlocks pre
           (stateSetup prog st0 w).1 w).1 w).1 w).2) := by
      rw [hsplit, runBlocks_append]
      rfl
    simp only [execute]
    rw [hr]
    simp only [List.mem_append]
    tauto
  · have h0 : (execute prog st0 w).1.total_executions =
        (runBlocks (_merge_python_blocks prog.code_blocks)
          (stateSetup prog st0 w).1 w).1.total_executions := rfl
    rw [h0, runBlocks_total, stateSetup_total]
  · exact ⟨[Ev.out "🚀 LF Runtime Started", Ev.out dashLine] ++ (stateSetup prog st0 w).2 ++
      [Ev.out ("📊 Python blocks merged: " ++ toString prog.code_blocks.length ++ " -> " ++
        toString (_merge_python_blocks prog.code_blocks).length)] ++
      (runBlocks (_merge_python_blocks prog.code_blocks) (stateSetup prog st0 w).1 w).2,
      rfl⟩

/-- The program used by the C1 witness: one Python fragment. -/
def c1_prog : Parsed := ⟨[], [⟨1, "py", "boom"⟩]⟩

/-- A world for the C1 witness whose Python execution oracle always
raises. -/
def c1_world : World :=
  { proc := fun _ => .timeout, pyEval := pyEvalInert,
    pyExec := fun _ _ => .error "kaboom",
    importOk := fun _ => false, tempName := fun n => "t" ++ toString n,
    tempDir := "d", elapsed := 0 }

/-- C1 (witness): with an always-raising Python oracle, the single
fragment's failure is reported as a line-attributed diagnostic and the
run still counts the fragment. -/
theorem c1_witness :
    Ev.out "❌ Execution error at line 1: Python error at line 1: kaboom"
      ∈ (execute c1_prog initState c1_world).2 ∧
    (execute c1_prog initState c1_world).1.total_executions =
      initState.total_executions + (_merge_python_blocks c1_prog.code_blocks).length :=
  have h := c1_dispatcher c1_prog initState c1_world [] [] ⟨1, "py", "boom"⟩
    "Python error at line 1: kaboom" (by decide) (by decide)
  ⟨h.1, h.2.1⟩

end LF
